import Mathlib

/-! Game of Life engine (`src/main.cpp`): shallow embedding and verified properties.

The embedding covers the simulation core of `main.cpp`: the helper functions
`isValidCell` and `getGridIndex`, the seeding routine `initializeRandomPattern`
and the tick `updateMassive2DGameOfLife`, together with the global state they
read and write.

Modelling conventions.

* The compile-time constants `GRID_WIDTH`, `GRID_HEIGHT` and `GRID_SIZE` are the
  fields of a `Config`; `Config.source` is the configuration of the file
  (1920 x 1080 cells, 32 x 32 buckets).  Every function takes the configuration
  as its first argument, so the definitions can be run on small grids and the
  theorems hold for the configured grid as an instance.
* `int` values are modelled by `Int`.  For the configured grid every `int` the
  engine computes lies between `-1` and `1920 * 1080`, far inside the 32-bit
  range, so no reduction modulo `2 ^ 32` is needed.  The cast `(uint8_t)` and
  the increment of the `size_t` generation counter are modelled with explicit
  reductions.
* `std::vector<bool>` is a `List Bool`; reading position `i` is `bitAt`, the
  assignment `v[i] = true` is `setBit`, `std::fill (.., false)` maps every
  entry to `false`, `push_back` appends at the end.
* `float` values that are only compared (`dist(rng) < density`) are modelled by
  rationals: every finite `float` is a rational and the comparison is exact.
  The random generator is the stream `r` of the values that successive calls
  `dist(rng)` return.
* Wall-clock measurements (`updateTime`, `fps`) and console output are not part
  of the model.
-/

namespace GameOfLife

/-! ## Configuration constants -/

/-- The compile-time constants of the engine.  `sizeBits` is the width of
`size_t` on the target (32 for the WebAssembly build, 64 for a native one). -/
structure Config where
  GRID_WIDTH : Nat
  GRID_HEIGHT : Nat
  GRID_SIZE : Nat
  sizeBits : Nat
deriving DecidableEq, Repr

/-- The constants as written in `main.cpp`. -/
def Config.source : Config :=
  { GRID_WIDTH := 1920, GRID_HEIGHT := 1080, GRID_SIZE := 32, sizeBits := 32 }

/-- The constant `const int CHUNK_SIZE = GRID_WIDTH / GRID_SIZE;` (integer division). -/
def Config.CHUNK_SIZE (c : Config) : Nat := c.GRID_WIDTH / c.GRID_SIZE

/-- The constant `const size_t MAX_INSTANCES = 800000;` -/
def MAX_INSTANCES : Nat := 800000

/-! ## Data structures -/

/-- The record `struct CellData` with fields `int x`, `int y`, `uint8_t neighbors`,
`bool isNewBorn`. -/
structure CellData where
  x : Int
  y : Int
  neighbors : Nat
  isNewBorn : Bool
deriving DecidableEq, Repr

/-- The record `struct InstanceData`.  The position is computed in floating point from the
cell coordinates and the colour from `(neighbors, isNewBorn)` and the two colour
parameters; the model keeps the integer arguments those values are computed
from. -/
structure InstanceData where
  cellX : Int
  cellY : Int
  neighbors : Nat
  isNewBorn : Bool
  isDying : Bool
deriving DecidableEq, Repr

/-- The record `struct RenderData`. -/
structure RenderData where
  instances : List InstanceData
  instanceCount : Nat
  needsUpdate : Bool
deriving DecidableEq, Repr

/-- The record `struct GameStats` (the fields `totalCells` and `generation`). -/
structure GameStats where
  totalCells : Nat
  generation : Nat
deriving DecidableEq, Repr

/-- The global state of the engine: both bitmaps, the live-cell list, the
bucket grid, the statistics, the pause flag and the published render buffer
`renderBuffers[0]`. -/
structure State where
  currentGrid : List Bool
  nextGrid : List Bool
  aliveCellsData : List CellData
  spatialGrid : List (List (List Int))
  gameStats : GameStats
  isPaused : Bool
  renderBuffer : RenderData
deriving DecidableEq, Repr

/-! ## Helper functions -/

/-- The function `inline bool isValidCell(int x, int y)`. -/
def isValidCell (c : Config) (x y : Int) : Bool :=
  decide (x ≥ 0) && decide (x < c.GRID_WIDTH) && decide (y ≥ 0) && decide (y < c.GRID_HEIGHT)

/-- The function `inline int getGridIndex(int x, int y)`. -/
def getGridIndex (c : Config) (x y : Int) : Int :=
  x + y * c.GRID_WIDTH

/-- Reading `v[i]` of a `std::vector<bool>`. -/
def bitAt (v : List Bool) (i : Int) : Bool :=
  v.getD i.toNat false

/-- The assignment `v[i] = true` on a `std::vector<bool>`. -/
def setBit (v : List Bool) (i : Int) : List Bool :=
  v.set i.toNat true

/-- The call `std::fill(v.begin(), v.end(), false)`. -/
def fillFalse (v : List Bool) : List Bool :=
  v.map (fun _ => false)

/-- The loops `for (auto& row : spatialGrid) for (auto& chunk : row) chunk.clear();` -/
def clearSpatialGrid (sg : List (List (List Int))) : List (List (List Int)) :=
  sg.map (fun row => row.map (fun _ => []))

/-- The statement `spatialGrid[gridY][gridX].push_back(idx)`. -/
def pushBucket (sg : List (List (List Int))) (gridY gridX idx : Int) : List (List (List Int)) :=
  sg.modify (fun row => row.modify (fun chunk => chunk ++ [idx]) gridX.toNat) gridY.toNat

/-- The guarded insertion of one cell into its bucket:
`gridX = x / CHUNK_SIZE; gridY = y / CHUNK_SIZE; if (in range) push_back(idx)`.
The division is the truncating division of C++ on `int`; a chunk size of zero
(undefined in C++) does not occur for the configured constants. -/
def insertSpatial (c : Config) (sg : List (List (List Int))) (x y idx : Int) :
    List (List (List Int)) :=
  let gridX := Int.tdiv x c.CHUNK_SIZE
  let gridY := Int.tdiv y c.CHUNK_SIZE
  if gridX ≥ 0 ∧ gridX < c.GRID_SIZE ∧ gridY ≥ 0 ∧ gridY < c.GRID_SIZE then
    pushBucket sg gridY gridX idx
  else sg

/-! ## `initializeRandomPattern` -/

/-- The variables the seeding loop updates; `draws` counts the calls of
`dist(rng)` made so far. -/
structure SeedLoop where
  currentGrid : List Bool
  aliveCellsData : List CellData
  spatialGrid : List (List (List Int))
  draws : Nat
deriving DecidableEq, Repr

/-- The body of the inner seeding loop for the cell `(x, y)`. -/
def seedCell (c : Config) (density : ℚ) (r : Nat → ℚ) (y x : Nat) (st : SeedLoop) : SeedLoop :=
  if r st.draws < density then
    let idx := getGridIndex c x y
    { currentGrid := setBit st.currentGrid idx
      aliveCellsData := st.aliveCellsData ++ [{ x := x, y := y, neighbors := 0, isNewBorn := true }]
      spatialGrid := insertSpatial c st.spatialGrid x y idx
      draws := st.draws + 1 }
  else
    { st with draws := st.draws + 1 }

/-- The loop `for (int x = 0; x < GRID_WIDTH; x++)` of row `y`. -/
def seedRow (c : Config) (density : ℚ) (r : Nat → ℚ) (st : SeedLoop) (y : Nat) : SeedLoop :=
  (List.range c.GRID_WIDTH).foldl (fun st x => seedCell c density r y x st) st

/-- The loop `for (int y = 0; y < GRID_HEIGHT; y++)`. -/
def seedGrid (c : Config) (density : ℚ) (r : Nat → ℚ) (st : SeedLoop) : SeedLoop :=
  (List.range c.GRID_HEIGHT).foldl (seedRow c density r) st

/-- The function `void initializeRandomPattern(float density)`; `r n` is the value of the
`n`-th call of `dist(rng)` made by this invocation. -/
def initializeRandomPattern (c : Config) (density : ℚ) (r : Nat → ℚ) (s : State) : State :=
  let st := seedGrid c density r
    { currentGrid := fillFalse s.currentGrid
      aliveCellsData := []
      spatialGrid := clearSpatialGrid s.spatialGrid
      draws := 0 }
  { s with
    currentGrid := st.currentGrid
    nextGrid := fillFalse s.nextGrid
    aliveCellsData := st.aliveCellsData
    spatialGrid := st.spatialGrid
    gameStats := { totalCells := st.aliveCellsData.length, generation := 0 } }

/-! ## `updateMassive2DGameOfLife` -/

/-- The loop `for (int dx = -1; dx <= 1; dx++)` of the active-region pass. -/
def markRow (c : Config) (cell : CellData) (dy : Int) (activeRegion : List Bool) : List Bool :=
  [-1, 0, 1].foldl (fun ar dx =>
    let nx := cell.x + dx
    let ny := cell.y + dy
    if isValidCell c nx ny then setBit ar (getGridIndex c nx ny) else ar) activeRegion

/-- The loop `for (int dy = -1; dy <= 1; dy++)` for one live-cell record. -/
def markCell (c : Config) (activeRegion : List Bool) (cell : CellData) : List Bool :=
  [-1, 0, 1].foldl (fun ar dy => markRow c cell dy ar) activeRegion

/-- The active-region mask: a fresh all-false vector of `GRID_WIDTH * GRID_HEIGHT`
bits, marked around every live-cell record. -/
def activeRegion (c : Config) (alive : List CellData) : List Bool :=
  alive.foldl (markCell c) (List.replicate (c.GRID_WIDTH * c.GRID_HEIGHT) false)

/-- The value a `bool` contributes in `neighbors += currentGrid[...]`. -/
def boolToInt (b : Bool) : Int := if b then 1 else 0

/-- The eight guarded additions that compute `neighbors` for the cell `(x, y)`. -/
def countNeighbors (c : Config) (currentGrid : List Bool) (x y : Int) : Int :=
  let w : Int := c.GRID_WIDTH
  let h : Int := c.GRID_HEIGHT
  let n : Int := 0
  let n := if x > 0 ∧ y > 0 then n + boolToInt (bitAt currentGrid (getGridIndex c (x - 1) (y - 1))) else n
  let n := if y > 0 then n + boolToInt (bitAt currentGrid (getGridIndex c x (y - 1))) else n
  let n := if x < w - 1 ∧ y > 0 then n + boolToInt (bitAt currentGrid (getGridIndex c (x + 1) (y - 1))) else n
  let n := if x > 0 then n + boolToInt (bitAt currentGrid (getGridIndex c (x - 1) y)) else n
  let n := if x < w - 1 then n + boolToInt (bitAt currentGrid (getGridIndex c (x + 1) y)) else n
  let n := if x > 0 ∧ y < h - 1 then n + boolToInt (bitAt currentGrid (getGridIndex c (x - 1) (y + 1))) else n
  let n := if y < h - 1 then n + boolToInt (bitAt currentGrid (getGridIndex c x (y + 1))) else n
  let n := if x < w - 1 ∧ y < h - 1 then n + boolToInt (bitAt currentGrid (getGridIndex c (x + 1) (y + 1))) else n
  n

/-- The expression `isAlive ? (neighbors == 2 || neighbors == 3) : (neighbors == 3)`. -/
def willLive (isAlive : Bool) (neighbors : Int) : Bool :=
  if isAlive then (neighbors == 2 || neighbors == 3) else neighbors == 3

/-- The body of the loop `for (size_t idx = 0; idx < GRID_WIDTH * GRID_HEIGHT; idx++)`:
skip unmasked cells, otherwise evaluate the rule and append a record for a cell
that will live. -/
def evalCell (c : Config) (currentGrid mask : List Bool) (next : List CellData) (idx : Nat) :
    List CellData :=
  if !bitAt mask idx then next
  else
    let x : Int := ((idx % c.GRID_WIDTH : Nat) : Int)
    let y : Int := ((idx / c.GRID_WIDTH : Nat) : Int)
    let neighbors := countNeighbors c currentGrid x y
    let isAlive := bitAt currentGrid idx
    if willLive isAlive neighbors then
      next ++ [{ x := x, y := y, neighbors := (neighbors % 256).toNat, isNewBorn := !isAlive }]
    else next

/-- The list `nextAliveCellsData` after the rule-evaluation loop. -/
def nextAliveCells (c : Config) (currentGrid : List Bool) (alive : List CellData) :
    List CellData :=
  (List.range (c.GRID_WIDTH * c.GRID_HEIGHT)).foldl
    (evalCell c currentGrid (activeRegion c alive)) []

/-- The loop that fills `nextGrid` from `nextAliveCellsData` after `std::fill`. -/
def writeGrid (c : Config) (grid : List Bool) (cells : List CellData) : List Bool :=
  cells.foldl (fun g cell => setBit g (getGridIndex c cell.x cell.y)) (fillFalse grid)

/-- The rebuild of the bucket grid from the live-cell list. -/
def rebuildSpatialGrid (c : Config) (sg : List (List (List Int))) (alive : List CellData) :
    List (List (List Int)) :=
  alive.foldl (fun g cell => insertSpatial c g cell.x cell.y (getGridIndex c cell.x cell.y))
    (clearSpatialGrid sg)

/-- The loop `for (size_t i = 0; i < renderLimit; i++)` that builds `renderData`. -/
def buildRenderData (alive : List CellData) (renderLimit : Nat) : List InstanceData :=
  (List.range renderLimit).foldl (fun rd i =>
    match alive[i]? with
    | some cell =>
        rd ++ [{ cellX := cell.x, cellY := cell.y, neighbors := cell.neighbors,
                 isNewBorn := cell.isNewBorn, isDying := false }]
    | none => rd) []

/-- The function `void updateMassive2DGameOfLife()`. -/
def updateMassive2DGameOfLife (c : Config) (s : State) : State :=
  if s.isPaused then s
  else
    let nextAliveCellsData := nextAliveCells c s.currentGrid s.aliveCellsData
    let nextGrid := writeGrid c s.nextGrid nextAliveCellsData
    let totalCells := nextAliveCellsData.length
    let renderLimit := min totalCells MAX_INSTANCES
    let renderData := buildRenderData nextAliveCellsData renderLimit
    { currentGrid := nextGrid
      nextGrid := s.currentGrid
      aliveCellsData := nextAliveCellsData
      spatialGrid := rebuildSpatialGrid c s.spatialGrid nextAliveCellsData
      gameStats :=
        { totalCells := totalCells
          generation := (s.gameStats.generation + 1) % 2 ^ c.sizeBits }
      isPaused := s.isPaused
      renderBuffer :=
        { instances := renderData
          instanceCount := renderData.length
          needsUpdate := true } }

/-- The state after `k` successive calls of `updateMassive2DGameOfLife`. -/
def runTicks (c : Config) : Nat → State → State
  | 0, s => s
  | k + 1, s => runTicks c k (updateMassive2DGameOfLife c s)

/-! ## `keyCallback` and the tick rate -/

/-- The key codes that the `switch` of `keyCallback` distinguishes (the GLFW
constants `GLFW_KEY_...` of its `case` labels); `OTHER` stands for every other
key code, which reaches no label. -/
inductive Key where
  | LEFT_BRACKET | RIGHT_BRACKET | C | SPACE | R | T | H
  | KP_ADD | EQUAL | KP_SUBTRACT | MINUS
  | NUM_1 | NUM_2 | NUM_3 | NUM_4 | OTHER
deriving DecidableEq, Repr

/-- The values of the `action` argument of a GLFW key callback. -/
inductive Action where
  | RELEASE | PRESS | REPEAT
deriving DecidableEq, Repr

/-- The initial value of the global `unsigned int updatesPerSecond = 20;`. -/
def updatesPerSecondInit : Nat := 20

/-- The expression `n + 1u` in 32-bit `unsigned int` arithmetic. -/
def uaddOne (n : Nat) : Nat := (n + 1) % 2 ^ 32

/-- The expression `n - 1u` in 32-bit `unsigned int` arithmetic (wraps at zero). -/
def usubOne (n : Nat) : Nat := (n + (2 ^ 32 - 1)) % 2 ^ 32

/-- The effect of `void keyCallback(window, key, scancode, action, mods)` on the
global `updatesPerSecond`: nothing unless `action == GLFW_PRESS`; the speed-up
keys store `std::min(60u, updatesPerSecond + 1u)`, the slow-down keys
`std::max(1u, updatesPerSecond - 1u)`; the other cases write other globals only. -/
def keyCallback (key : Key) (action : Action) (updatesPerSecond : Nat) : Nat :=
  if action ≠ Action.PRESS then updatesPerSecond
  else
    match key with
    | Key.KP_ADD => min 60 (uaddOne updatesPerSecond)
    | Key.EQUAL => min 60 (uaddOne updatesPerSecond)
    | Key.KP_SUBTRACT => max 1 (usubOne updatesPerSecond)
    | Key.MINUS => max 1 (usubOne updatesPerSecond)
    | _ => updatesPerSecond

/-- The value of `updatesPerSecond` after a sequence of key events. -/
def keyEvents (events : List (Key × Action)) (updatesPerSecond : Nat) : Nat :=
  events.foldl (fun ups e => keyCallback e.1 e.2 ups) updatesPerSecond

/-! ## Specification-side definitions and auxiliary notions -/

/-- Bounds-checked liveness of the cell `(x, y)` in a bitmap: `false` outside the grid. -/
def aliveAt (c : Config) (grid : List Bool) (x y : Int) : Bool :=
  isValidCell c x y && bitAt grid (getGridIndex c x y)

/-- The eight offsets of the adjacent cells. -/
def neighbourOffsets : List (Int × Int) :=
  [(-1, -1), (0, -1), (1, -1), (-1, 0), (1, 0), (-1, 1), (0, 1), (1, 1)]

/-- The number of in-bounds adjacent cells of `(x, y)` that are alive in the bitmap. -/
def liveNeighbours (c : Config) (grid : List Bool) (x y : Int) : Nat :=
  neighbourOffsets.countP (fun o => aliveAt c grid (x + o.1) (y + o.2))

/-- The Game-of-Life rule as the specification words it: a live cell survives
iff it has 2 or 3 live neighbours, a dead cell becomes alive iff it has 3. -/
def lifeRule (alive : Bool) (n : Nat) : Bool :=
  (alive && (n == 2 || n == 3)) || (!alive && n == 3)

/-- Both bitmaps have `GRID_WIDTH * GRID_HEIGHT` entries. -/
def State.Sized (c : Config) (s : State) : Prop :=
  s.currentGrid.length = c.GRID_WIDTH * c.GRID_HEIGHT ∧
  s.nextGrid.length = c.GRID_WIDTH * c.GRID_HEIGHT

instance (c : Config) (s : State) : Decidable (s.Sized c) := by
  unfold State.Sized; infer_instance

/-- The bitmap agrees with the live-cell list: for every in-bounds cell the bit
is set iff the list holds a record with that coordinate. -/
def Agrees (c : Config) (grid : List Bool) (alive : List CellData) : Prop :=
  ∀ x < c.GRID_WIDTH, ∀ y < c.GRID_HEIGHT,
    (bitAt grid (getGridIndex c x y) = true ↔ ∃ cell ∈ alive, cell.x = x ∧ cell.y = y)

instance (c : Config) (grid : List Bool) (alive : List CellData) :
    Decidable (Agrees c grid alive) := by
  unfold Agrees; infer_instance

/-- The cell with index `j` lies in the 3 x 3 neighbourhood that the active-region
pass marks around the record `cell`. -/
def Marks (c : Config) (cell : CellData) (j : Nat) : Prop :=
  ∃ dy ∈ ([-1, 0, 1] : List Int), ∃ dx ∈ ([-1, 0, 1] : List Int),
    isValidCell c (cell.x + dx) (cell.y + dy) = true ∧
      getGridIndex c (cell.x + dx) (cell.y + dy) = (j : Int)

/-- The part of `Marks` contributed by the row offset `dy`. -/
def MarksRow (c : Config) (cell : CellData) (dy : Int) (j : Nat) : Prop :=
  ∃ dx ∈ ([-1, 0, 1] : List Int),
    isValidCell c (cell.x + dx) (cell.y + dy) = true ∧
      getGridIndex c (cell.x + dx) (cell.y + dy) = (j : Int)

/-- The rule applied by the code to the cell with index `idx`. -/
def cellWillLive (c : Config) (grid : List Bool) (idx : Nat) : Bool :=
  willLive (bitAt grid idx)
    (countNeighbors c grid ((idx % c.GRID_WIDTH : Nat) : Int) ((idx / c.GRID_WIDTH : Nat) : Int))

/-- The record the code appends for the cell with index `idx`. -/
def cellRecord (c : Config) (grid : List Bool) (idx : Nat) : CellData :=
  { x := ((idx % c.GRID_WIDTH : Nat) : Int)
    y := ((idx / c.GRID_WIDTH : Nat) : Int)
    neighbors := (countNeighbors c grid ((idx % c.GRID_WIDTH : Nat) : Int)
      ((idx / c.GRID_WIDTH : Nat) : Int) % 256).toNat
    isNewBorn := !bitAt grid idx }

/-- One generation of the reference evaluator: the Game-of-Life rule with hard
edges applied to every cell of the full grid. -/
def bruteForceStep (c : Config) (grid : List Bool) : List Bool :=
  (List.range (c.GRID_WIDTH * c.GRID_HEIGHT)).map (fun idx : Nat =>
    lifeRule (bitAt grid (idx : Int))
      (liveNeighbours c grid ((idx % c.GRID_WIDTH : Nat) : Int) ((idx / c.GRID_WIDTH : Nat) : Int)))

/-- The bitmap after `k` generations of the reference evaluator. -/
def bruteForce (c : Config) : Nat → List Bool → List Bool
  | 0, grid => grid
  | k + 1, grid => bruteForce c k (bruteForceStep c grid)

/-- The number of live cells of a bitmap. -/
def liveCount (grid : List Bool) : Nat := grid.count true

/-- The record the seeding loop appends for the cell with index `i`. -/
def seedRecord (c : Config) (i : Nat) : CellData :=
  { x := ((i % c.GRID_WIDTH : Nat) : Int), y := ((i / c.GRID_WIDTH : Nat) : Int),
    neighbors := 0, isNewBorn := true }

/-- The Bernoulli trial of draw number `i`: the draw is below the density. -/
def seedSelected (density : ℚ) (r : Nat → ℚ) (i : Nat) : Bool :=
  decide (r i < density)

/-- The cells selected by the draws, in row-major order, as seed records. -/
def seedCells (c : Config) (density : ℚ) (r : Nat → ℚ) : List CellData :=
  ((List.range (c.GRID_WIDTH * c.GRID_HEIGHT)).filter (seedSelected density r)).map (seedRecord c)

/-- The bucket grid has `GRID_SIZE` rows of `GRID_SIZE` buckets. -/
def Shaped (c : Config) (sg : List (List (List Int))) : Prop :=
  sg.length = c.GRID_SIZE ∧ ∀ row ∈ sg, row.length = c.GRID_SIZE

instance (c : Config) (sg : List (List (List Int))) : Decidable (Shaped c sg) := by
  unfold Shaped; infer_instance

/-- Reading the bucket `spatialGrid[gy][gx]`. -/
def bucket (sg : List (List (List Int))) (gy gx : Nat) : List Int :=
  (sg.getD gy []).getD gx []

/-- The record lies in the chunk `(gx, gy)`: `(x / CHUNK_SIZE, y / CHUNK_SIZE) == (gx, gy)`. -/
def inChunk (c : Config) (gy gx : Nat) (cell : CellData) : Bool :=
  decide (Int.tdiv cell.x c.CHUNK_SIZE = gx ∧ Int.tdiv cell.y c.CHUNK_SIZE = gy)

/-- The bucket invariant: every bucket holds exactly the grid indices of the
live-cell records of its chunk, in list order; no record falls outside the
bucket range; and the buckets together hold the same indices as the list. -/
def BucketsExact (c : Config) (s : State) : Prop :=
  (∀ gy < c.GRID_SIZE, ∀ gx < c.GRID_SIZE,
      bucket s.spatialGrid gy gx =
        (s.aliveCellsData.filter (inChunk c gy gx)).map (fun cell => getGridIndex c cell.x cell.y)) ∧
    (∀ cell ∈ s.aliveCellsData, ∃ gy < c.GRID_SIZE, ∃ gx < c.GRID_SIZE, inChunk c gy gx cell = true) ∧
    (∀ i : Int, i ∈ s.spatialGrid.flatten.flatten ↔
      ∃ cell ∈ s.aliveCellsData, getGridIndex c cell.x cell.y = i)

/-- The state of the globals at program start, before any call: both bitmaps
all `false`, no live-cell record, empty buckets, zero counters, not paused, an
empty render buffer. -/
def State.initial (c : Config) : State :=
  { currentGrid := List.replicate (c.GRID_WIDTH * c.GRID_HEIGHT) false
    nextGrid := List.replicate (c.GRID_WIDTH * c.GRID_HEIGHT) false
    aliveCellsData := []
    spatialGrid := List.replicate c.GRID_SIZE (List.replicate c.GRID_SIZE [])
    gameStats := { totalCells := 0, generation := 0 }
    isPaused := false
    renderBuffer := { instances := [], instanceCount := 0, needsUpdate := false } }

/-- The seed list as the specification words it: the cells `(x, y)` whose draw
number `x + y * GRID_WIDTH` is below the density, row by row, each with
`neighbors = 0` and `isNewBorn = true`. -/
def seedSpec (c : Config) (density : ℚ) (r : Nat → ℚ) : List CellData :=
  (List.range c.GRID_HEIGHT).flatMap (fun y : Nat =>
    ((List.range c.GRID_WIDTH).filter (fun x : Nat => decide (r (x + y * c.GRID_WIDTH) < density))).map
      (fun x : Nat => { x := (x : Int), y := (y : Int), neighbors := 0, isNewBorn := true }))

/-! ## Fixtures for evaluating the definitions -/

/-- A 6 x 5 grid with 2 x 2 buckets of chunk size 3. -/
def smallConfig : Config :=
  { GRID_WIDTH := 6, GRID_HEIGHT := 5, GRID_SIZE := 2, sizeBits := 32 }

/-- A consistent, unpaused state whose live cells are the listed coordinates. -/
def stateOf (c : Config) (cells : List (Int × Int)) : State :=
  { State.initial c with
    currentGrid := cells.foldl (fun g p => setBit g (getGridIndex c p.1 p.2))
      (State.initial c).currentGrid
    aliveCellsData := cells.map (fun p => { x := p.1, y := p.2, neighbors := 0, isNewBorn := true })
    gameStats := { totalCells := cells.length, generation := 0 } }

/-- A horizontal blinker centred at `(2, 2)` on the small grid. -/
def blinkerState : State := stateOf smallConfig [(1, 2), (2, 2), (3, 2)]

/-- A 2 x 2 block in the lower right corner of the small grid. -/
def blockState : State := stateOf smallConfig [(4, 3), (5, 3), (4, 4), (5, 4)]

/-- A single live cell on the small grid. -/
def loneCellState : State := stateOf smallConfig [(0, 0)]

/-- A paused copy of the blinker state. -/
def pausedState : State := { blinkerState with isPaused := true }

/-- A stream of draws in `[0, 1)` that alternates between `0` and `1/2`. -/
def sampleDraws (n : Nat) : ℚ := if n % 2 = 0 then 0 else 1 / 2

/-! ## Patterns in relative coordinates -/

/-- The number of adjacent cells of the relative position `(i, j)` that belong
to the pattern `rel`. -/
def relCount (rel : Int → Int → Bool) (i j : Int) : Nat :=
  neighbourOffsets.countP (fun o => rel (i + o.1) (j + o.2))

/-- The Game-of-Life rule applied to a pattern at the relative position `(i, j)`. -/
def relNext (rel : Int → Int → Bool) (i j : Int) : Bool :=
  lifeRule (rel i j) (relCount rel i j)

/-- The live cells of the bitmap are exactly the cells of the pattern `rel`
placed at the anchor `(ax, ay)`. -/
def ShowsPattern (c : Config) (grid : List Bool) (ax ay : Int) (rel : Int → Int → Bool) : Prop :=
  ∀ x y : Int, aliveAt c grid x y = rel (x - ax) (y - ay)

/-- The 2 x 2 block, anchored at its top-left cell. -/
def blockRel (i j : Int) : Bool := decide (0 ≤ i ∧ i ≤ 1 ∧ 0 ≤ j ∧ j ≤ 1)

/-- The horizontal blinker, anchored at its centre. -/
def blinkerHRel (i j : Int) : Bool := decide (-1 ≤ i ∧ i ≤ 1 ∧ j = 0)

/-- The vertical blinker, anchored at its centre. -/
def blinkerVRel (i j : Int) : Bool := decide (i = 0 ∧ -1 ≤ j ∧ j ≤ 1)

/-- A single cell, anchored at itself. -/
def loneRel (i j : Int) : Bool := decide (i = 0 ∧ j = 0)

/-- The empty pattern. -/
def emptyRel (_ _ : Int) : Bool := false

/-! ## Notions for the remaining properties -/

/-- The test the rule-evaluation loop applies to the index `idx`: the cell is
masked and the rule lets it live. -/
def maskedWillLive (c : Config) (grid : List Bool) (alive : List CellData) (idx : Nat) : Bool :=
  bitAt (activeRegion c alive) (idx : Int) && cellWillLive c grid idx

/-- The live-cell list is strictly increasing in the row-major grid index
`x + y * GRID_WIDTH`. -/
def IndexSorted (c : Config) (alive : List CellData) : Prop :=
  (alive.map (fun cell => getGridIndex c cell.x cell.y)).Sorted (· < ·)

/-- The renderable record built from a live-cell record. -/
def toInstance (cell : CellData) : InstanceData :=
  { cellX := cell.x, cellY := cell.y, neighbors := cell.neighbors,
    isNewBorn := cell.isNewBorn, isDying := false }

/-- The live-cell list is strictly increasing in grid index, every record is in
bounds, no coordinate occurs twice, and the list is as long as the current
bitmap has live cells. -/
def WellListed (c : Config) (s : State) : Prop :=
  IndexSorted c s.aliveCellsData ∧
    (∀ cell ∈ s.aliveCellsData, isValidCell c cell.x cell.y = true) ∧
    (s.aliveCellsData.map (fun cell => (cell.x, cell.y))).Nodup ∧
    s.aliveCellsData.length = liveCount s.currentGrid

/-- The number of adjacent positions of `(x, y)` that lie inside the grid. -/
def validNeighbours (c : Config) (x y : Int) : Nat :=
  neighbourOffsets.countP (fun o => isValidCell c (x + o.1) (y + o.2))

/-- The dimension requirement of the specification: the chunk count divides
both the grid width and the grid height evenly. -/
def DimensionRequirement (c : Config) : Prop :=
  c.GRID_SIZE ∣ c.GRID_WIDTH ∧ c.GRID_SIZE ∣ c.GRID_HEIGHT

instance (c : Config) : Decidable (DimensionRequirement c) := by
  unfold DimensionRequirement; infer_instance

/-! ## A dense state of the configured grid -/

/-- A stream of draws that is `0` on the even rows of the configured grid and
`1/2` on the odd rows. -/
def stripeDraws (n : Nat) : ℚ := if (n / 1920) % 2 = 0 then 0 else 1 / 2

/-- The configured grid seeded from the initial state with density `3/10` and
the draws `stripeDraws`: the cells of the even rows are alive. -/
def stripeState : State :=
  initializeRandomPattern Config.source (3 / 10) stripeDraws (State.initial Config.source)

/-- The index of the `t`-th interior cell of the even rows, counted row by row. -/
def stripeIndex (c : Config) (t : Nat) : Nat :=
  (t % (c.GRID_WIDTH - 2) + 1) + (2 * (t / (c.GRID_WIDTH - 2))) * c.GRID_WIDTH

/-! ## Index arithmetic -/

theorem getGridIndex_natCast (c : Config) (x y : Nat) :
    getGridIndex c x y = ((x + y * c.GRID_WIDTH : Nat) : Int) := by
  simp [getGridIndex]

theorem cell_index_lt (c : Config) {x y : Nat} (hx : x < c.GRID_WIDTH) (hy : y < c.GRID_HEIGHT) :
    x + y * c.GRID_WIDTH < c.GRID_WIDTH * c.GRID_HEIGHT := by
  have h1 : (y + 1) * c.GRID_WIDTH ≤ c.GRID_HEIGHT * c.GRID_WIDTH :=
    Nat.mul_le_mul_right _ hy
  have h2 : c.GRID_WIDTH * c.GRID_HEIGHT = c.GRID_HEIGHT * c.GRID_WIDTH := Nat.mul_comm _ _
  have h3 : (y + 1) * c.GRID_WIDTH = y * c.GRID_WIDTH + c.GRID_WIDTH := Nat.succ_mul _ _
  omega

theorem index_mod_lt (c : Config) {idx : Nat} (h : idx < c.GRID_WIDTH * c.GRID_HEIGHT) :
    idx % c.GRID_WIDTH < c.GRID_WIDTH := by
  apply Nat.mod_lt
  rcases Nat.eq_zero_or_pos c.GRID_WIDTH with h0 | h0
  · rw [h0] at h; simp at h
  · exact h0

theorem index_div_lt (c : Config) {idx : Nat} (h : idx < c.GRID_WIDTH * c.GRID_HEIGHT) :
    idx / c.GRID_WIDTH < c.GRID_HEIGHT :=
  Nat.div_lt_of_lt_mul h

theorem index_decompose (c : Config) (idx : Nat) :
    idx % c.GRID_WIDTH + idx / c.GRID_WIDTH * c.GRID_WIDTH = idx := by
  rw [Nat.mul_comm]; exact Nat.mod_add_div _ _

theorem cell_index_mod (c : Config) {x : Nat} (y : Nat) (hx : x < c.GRID_WIDTH) :
    (x + y * c.GRID_WIDTH) % c.GRID_WIDTH = x := by
  rw [Nat.add_mul_mod_self_right]; exact Nat.mod_eq_of_lt hx

theorem cell_index_div (c : Config) {x : Nat} (y : Nat) (hx : x < c.GRID_WIDTH) :
    (x + y * c.GRID_WIDTH) / c.GRID_WIDTH = y := by
  rw [Nat.add_mul_div_right _ _ (by omega), Nat.div_eq_of_lt hx]; simp

theorem cell_index_inj (c : Config) {x y x' y' : Nat} (hx : x < c.GRID_WIDTH)
    (hx' : x' < c.GRID_WIDTH) (h : x + y * c.GRID_WIDTH = x' + y' * c.GRID_WIDTH) :
    x = x' ∧ y = y' := by
  have h1 := cell_index_mod c y hx
  have h2 := cell_index_div c y hx
  rw [h] at h1 h2
  rw [cell_index_mod c y' hx'] at h1
  rw [cell_index_div c y' hx'] at h2
  exact ⟨h1.symm, h2.symm⟩

theorem isValidCell_iff (c : Config) (x y : Int) :
    isValidCell c x y = true ↔ 0 ≤ x ∧ x < c.GRID_WIDTH ∧ 0 ≤ y ∧ y < c.GRID_HEIGHT := by
  simp [isValidCell, and_assoc]

theorem isValidCell_natCast (c : Config) (x y : Nat) :
    isValidCell c x y = true ↔ x < c.GRID_WIDTH ∧ y < c.GRID_HEIGHT := by
  simp [isValidCell]

/-- A valid cell is a pair of naturals below the grid dimensions. -/
theorem isValidCell_exists_nat (c : Config) {x y : Int} (h : isValidCell c x y = true) :
    ∃ a b : Nat, x = a ∧ y = b ∧ a < c.GRID_WIDTH ∧ b < c.GRID_HEIGHT := by
  rw [isValidCell_iff] at h
  refine ⟨x.toNat, y.toNat, ?_, ?_, ?_, ?_⟩ <;> omega

/-! ## Reading and writing bits -/

theorem bitAt_natCast (v : List Bool) (i : Nat) : bitAt v (i : Int) = v.getD i false := by
  simp [bitAt]

theorem length_setBit (v : List Bool) (i : Int) : (setBit v i).length = v.length := by
  simp [setBit]

theorem length_fillFalse (v : List Bool) : (fillFalse v).length = v.length := by
  simp [fillFalse]

theorem getD_fillFalse (v : List Bool) (j : Nat) : (fillFalse v).getD j false = false := by
  simp only [fillFalse, List.getD_eq_getElem?_getD, List.getElem?_map]
  cases v[j]? <;> rfl

theorem getD_setBit (v : List Bool) (i j : Nat) :
    (setBit v (i : Int)).getD j false = (decide (i = j ∧ i < v.length) || v.getD j false) := by
  simp only [setBit, Int.toNat_ofNat, List.getD_eq_getElem?_getD, List.getElem?_set]
  by_cases h : i = j
  · subst h
    by_cases h2 : i < v.length
    · simp [h2]
    · have h3 : v[i]? = none := List.getElem?_eq_none (by omega)
      simp [h2, h3]
  · simp [h]
theorem getD_setBit_int (v : List Bool) (i : Int) (hi : 0 ≤ i) (j : Nat) :
    (setBit v i).getD j false = (decide (i = (j : Int) ∧ j < v.length) || v.getD j false) := by
  obtain ⟨n, rfl⟩ := Int.eq_ofNat_of_zero_le hi
  rw [getD_setBit]
  by_cases h : n = j
  · subst h; simp
  · have h' : ¬ ((n : Int) = (j : Int)) := by omega
    simp [h, h']

/-- A loop of guarded assignments `if (p a) v[k a] = true` leaves the length unchanged. -/
theorem length_foldl_setBit {α : Type} (p : α → Bool) (k : α → Int) (l : List α) (v : List Bool) :
    (l.foldl (fun g a => if p a = true then setBit g (k a) else g) v).length = v.length := by
  induction l generalizing v with
  | nil => rfl
  | cons a l ih =>
    simp only [List.foldl_cons]
    rw [ih]
    split
    · exact length_setBit _ _
    · rfl

/-- A loop of guarded assignments `if (p a) v[k a] = true` sets exactly the bits that
were set before or are addressed by an element passing the guard. -/
theorem getD_foldl_setBit {α : Type} (p : α → Bool) (k : α → Int) (l : List α)
    (hk : ∀ a ∈ l, p a = true → 0 ≤ k a) (v : List Bool) (j : Nat) :
    (l.foldl (fun g a => if p a = true then setBit g (k a) else g) v).getD j false = true ↔
      v.getD j false = true ∨ (j < v.length ∧ ∃ a ∈ l, p a = true ∧ k a = (j : Int)) := by
  induction l generalizing v with
  | nil => simp
  | cons a l ih =>
    simp only [List.foldl_cons]
    rw [ih (fun b hb => hk b (List.mem_cons_of_mem _ hb))]
    by_cases hp : p a = true
    · have h0 := hk a (List.mem_cons_self _ _) hp
      simp only [hp, if_true, getD_setBit_int _ _ h0, length_setBit, Bool.or_eq_true,
        decide_eq_true_eq, List.mem_cons, exists_eq_or_imp, true_and]
      constructor
      · rintro ((⟨h1, h2⟩ | h1) | ⟨h1, h2⟩)
        · exact Or.inr ⟨h2, Or.inl h1⟩
        · exact Or.inl h1
        · exact Or.inr ⟨h1, Or.inr h2⟩
      · rintro (h1 | ⟨h1, h2 | h2⟩)
        · exact Or.inl (Or.inr h1)
        · exact Or.inl (Or.inl ⟨h2, h1⟩)
        · exact Or.inr ⟨h1, h2⟩
    · simp only [hp, List.mem_cons, exists_eq_or_imp, false_and, false_or]
      simp

theorem getGridIndex_nonneg (c : Config) {x y : Int} (h : isValidCell c x y = true) :
    0 ≤ getGridIndex c x y := by
  obtain ⟨a, b, rfl, rfl, -, -⟩ := isValidCell_exists_nat c h
  rw [getGridIndex_natCast]; exact Int.ofNat_nonneg _

theorem length_markRow (c : Config) (cell : CellData) (dy : Int) (v : List Bool) :
    (markRow c cell dy v).length = v.length :=
  length_foldl_setBit (fun dx => isValidCell c (cell.x + dx) (cell.y + dy))
    (fun dx => getGridIndex c (cell.x + dx) (cell.y + dy)) _ v

theorem getD_markRow (c : Config) (cell : CellData) (dy : Int) (v : List Bool) (j : Nat) :
    (markRow c cell dy v).getD j false = true ↔
      v.getD j false = true ∨ (j < v.length ∧ ∃ dx ∈ ([-1, 0, 1] : List Int),
        isValidCell c (cell.x + dx) (cell.y + dy) = true ∧
          getGridIndex c (cell.x + dx) (cell.y + dy) = (j : Int)) :=
  getD_foldl_setBit (fun dx => isValidCell c (cell.x + dx) (cell.y + dy))
    (fun dx => getGridIndex c (cell.x + dx) (cell.y + dy)) _
    (fun _ _ h => getGridIndex_nonneg c h) v j

theorem length_markCell (c : Config) (v : List Bool) (cell : CellData) :
    (markCell c v cell).length = v.length := by
  simp [markCell, length_markRow]

theorem marks_iff_rows (c : Config) (cell : CellData) (j : Nat) :
    Marks c cell j ↔ MarksRow c cell (-1) j ∨ MarksRow c cell 0 j ∨ MarksRow c cell 1 j := by
  unfold Marks
  simp only [List.mem_cons, List.mem_singleton, exists_eq_or_imp, exists_eq_left,
    List.not_mem_nil, false_and, exists_false, or_false, MarksRow]

theorem getD_markCell (c : Config) (v : List Bool) (cell : CellData) (j : Nat) :
    (markCell c v cell).getD j false = true ↔
      v.getD j false = true ∨ (j < v.length ∧ Marks c cell j) := by
  have e : markCell c v cell = markRow c cell 1 (markRow c cell 0 (markRow c cell (-1) v)) := rfl
  rw [e, getD_markRow, getD_markRow, getD_markRow, marks_iff_rows]
  simp only [length_markRow]
  have r : ∀ dy, (∃ dx ∈ ([-1, 0, 1] : List Int),
      isValidCell c (cell.x + dx) (cell.y + dy) = true ∧
        getGridIndex c (cell.x + dx) (cell.y + dy) = (j : Int)) = MarksRow c cell dy j :=
    fun _ => rfl
  rw [r, r, r]
  generalize MarksRow c cell (-1) j = A
  generalize MarksRow c cell 0 j = B
  generalize MarksRow c cell 1 j = C
  generalize (v.getD j false = true) = D
  generalize (j < v.length) = E
  tauto

theorem length_foldl_markCell (c : Config) (alive : List CellData) (v : List Bool) :
    (alive.foldl (markCell c) v).length = v.length := by
  induction alive generalizing v with
  | nil => rfl
  | cons a l ih => simp only [List.foldl_cons]; rw [ih, length_markCell]

theorem getD_foldl_markCell (c : Config) (alive : List CellData) (v : List Bool) (j : Nat) :
    (alive.foldl (markCell c) v).getD j false = true ↔
      v.getD j false = true ∨ (j < v.length ∧ ∃ cell ∈ alive, Marks c cell j) := by
  induction alive generalizing v with
  | nil => simp
  | cons a l ih =>
    simp only [List.foldl_cons]
    rw [ih, getD_markCell, length_markCell]
    simp only [List.mem_cons, exists_eq_or_imp]
    tauto

theorem length_activeRegion (c : Config) (alive : List CellData) :
    (activeRegion c alive).length = c.GRID_WIDTH * c.GRID_HEIGHT := by
  simp [activeRegion, length_foldl_markCell]

/-- The mask bit of an in-range index is set iff some live-cell record marks it. -/
theorem getD_activeRegion (c : Config) (alive : List CellData) {j : Nat}
    (hj : j < c.GRID_WIDTH * c.GRID_HEIGHT) :
    (activeRegion c alive).getD j false = true ↔ ∃ cell ∈ alive, Marks c cell j := by
  rw [activeRegion, getD_foldl_markCell]
  simp [hj]

/-- For an in-bounds cell, being marked by a record means lying within distance
one of it in both coordinates. -/
theorem marks_iff (c : Config) (cell : CellData) {x y : Nat} (hx : x < c.GRID_WIDTH)
    (hy : y < c.GRID_HEIGHT) :
    Marks c cell (x + y * c.GRID_WIDTH) ↔
      ((x : Int) - 1 ≤ cell.x ∧ cell.x ≤ x + 1 ∧ (y : Int) - 1 ≤ cell.y ∧ cell.y ≤ y + 1) := by
  constructor
  · rintro ⟨dy, hdy, dx, hdx, hv, hi⟩
    obtain ⟨a, b, ha, hb, ha', hb'⟩ := isValidCell_exists_nat c hv
    rw [ha, hb, getGridIndex_natCast] at hi
    have hi' : a + b * c.GRID_WIDTH = x + y * c.GRID_WIDTH := by exact_mod_cast hi
    obtain ⟨rfl, rfl⟩ := cell_index_inj c ha' hx hi'
    simp only [List.mem_cons, List.mem_singleton, List.not_mem_nil, or_false] at hdy hdx
    omega
  · rintro ⟨h1, h2, h3, h4⟩
    refine ⟨y - cell.y, ?_, x - cell.x, ?_, ?_, ?_⟩
    · simp only [List.mem_cons, List.mem_singleton, List.not_mem_nil, or_false]; omega
    · simp only [List.mem_cons, List.mem_singleton, List.not_mem_nil, or_false]; omega
    · have e1 : cell.x + ((x : Int) - cell.x) = x := by omega
      have e2 : cell.y + ((y : Int) - cell.y) = y := by omega
      rw [e1, e2, isValidCell_natCast]; exact ⟨hx, hy⟩
    · have e1 : cell.x + ((x : Int) - cell.x) = x := by omega
      have e2 : cell.y + ((y : Int) - cell.y) = y := by omega
      rw [e1, e2, getGridIndex_natCast]
/-! ## Neighbour counting -/

/-- One guarded addition of `countNeighbors` adds the bounds-checked liveness of
the neighbour it reads. -/
theorem guarded_add (c : Config) (grid : List Bool) (G : Prop) [Decidable G] (x y n : Int)
    (hG : G ↔ isValidCell c x y = true) :
    (if G then n + boolToInt (bitAt grid (getGridIndex c x y)) else n) =
      n + ((if aliveAt c grid x y = true then 1 else 0 : Nat) : Int) := by
  by_cases h : G
  · have hv := hG.mp h
    rw [if_pos h]
    cases hb : bitAt grid (getGridIndex c x y) <;> simp [aliveAt, hv, hb, boolToInt]
  · have hv : isValidCell c x y = false := by
      cases hvv : isValidCell c x y
      · rfl
      · exact absurd (hG.mpr hvv) h
    rw [if_neg h]
    simp [aliveAt, hv]

/-- The eight guarded additions of the code count exactly the in-bounds adjacent
cells that are alive. -/
theorem countNeighbors_eq (c : Config) (grid : List Bool) {x y : Nat}
    (hx : x < c.GRID_WIDTH) (hy : y < c.GRID_HEIGHT) :
    countNeighbors c grid x y = (liveNeighbours c grid x y : Int) := by
  have g1 : ((x : Int) > 0 ∧ (y : Int) > 0) ↔ isValidCell c ((x : Int) - 1) ((y : Int) - 1) = true := by
    rw [isValidCell_iff]; omega
  have g2 : ((y : Int) > 0) ↔ isValidCell c (x : Int) ((y : Int) - 1) = true := by
    rw [isValidCell_iff]; omega
  have g3 : ((x : Int) < (c.GRID_WIDTH : Int) - 1 ∧ (y : Int) > 0) ↔
      isValidCell c ((x : Int) + 1) ((y : Int) - 1) = true := by
    rw [isValidCell_iff]; omega
  have g4 : ((x : Int) > 0) ↔ isValidCell c ((x : Int) - 1) (y : Int) = true := by
    rw [isValidCell_iff]; omega
  have g5 : ((x : Int) < (c.GRID_WIDTH : Int) - 1) ↔ isValidCell c ((x : Int) + 1) (y : Int) = true := by
    rw [isValidCell_iff]; omega
  have g6 : ((x : Int) > 0 ∧ (y : Int) < (c.GRID_HEIGHT : Int) - 1) ↔
      isValidCell c ((x : Int) - 1) ((y : Int) + 1) = true := by
    rw [isValidCell_iff]; omega
  have g7 : ((y : Int) < (c.GRID_HEIGHT : Int) - 1) ↔ isValidCell c (x : Int) ((y : Int) + 1) = true := by
    rw [isValidCell_iff]; omega
  have g8 : ((x : Int) < (c.GRID_WIDTH : Int) - 1 ∧ (y : Int) < (c.GRID_HEIGHT : Int) - 1) ↔
      isValidCell c ((x : Int) + 1) ((y : Int) + 1) = true := by
    rw [isValidCell_iff]; omega
  simp only [countNeighbors]
  rw [guarded_add c grid _ _ _ _ g1, guarded_add c grid _ _ _ _ g2, guarded_add c grid _ _ _ _ g3,
    guarded_add c grid _ _ _ _ g4, guarded_add c grid _ _ _ _ g5, guarded_add c grid _ _ _ _ g6,
    guarded_add c grid _ _ _ _ g7, guarded_add c grid _ _ _ _ g8]
  simp only [liveNeighbours, neighbourOffsets, List.countP_cons, List.countP_nil,
    Int.add_neg_one, add_zero]
  push_cast
  ring

theorem liveNeighbours_le (c : Config) (grid : List Bool) (x y : Int) :
    liveNeighbours c grid x y ≤ 8 := by
  have h := List.countP_le_length (fun o : Int × Int => aliveAt c grid (x + o.1) (y + o.2))
    (l := neighbourOffsets)
  simpa [liveNeighbours, neighbourOffsets] using h

/-- The rule expression of the code is the Game-of-Life rule on the exact count. -/
theorem willLive_eq_lifeRule (alive : Bool) (n : Nat) :
    willLive alive (n : Int) = lifeRule alive n := by
  have h2 : ((n : Int) == 2) = (n == 2) := by
    rw [Bool.eq_iff_iff]; simp only [beq_iff_eq]; omega
  have h3 : ((n : Int) == 3) = (n == 3) := by
    rw [Bool.eq_iff_iff]; simp only [beq_iff_eq]; omega
  cases alive <;> simp [willLive, lifeRule, h2, h3]
/-! ## The rule-evaluation loop -/

theorem evalCell_eq (c : Config) (grid mask : List Bool) (next : List CellData) (idx : Nat) :
    evalCell c grid mask next idx =
      if (bitAt mask idx && cellWillLive c grid idx) = true then next ++ [cellRecord c grid idx]
      else next := by
  unfold evalCell cellWillLive cellRecord
  cases bitAt mask idx <;> simp

/-- A loop that appends `f i` for the elements passing a test builds the mapped filter. -/
theorem foldl_append_filter {α β : Type} (p : α → Bool) (f : α → β) (l : List α) (init : List β) :
    l.foldl (fun acc i => if p i = true then acc ++ [f i] else acc) init =
      init ++ (l.filter p).map f := by
  induction l generalizing init with
  | nil => simp
  | cons a l ih =>
    simp only [List.foldl_cons]
    rw [ih]
    by_cases h : p a = true
    · simp [h, List.filter_cons]
    · simp [h, List.filter_cons]

/-- The list produced by the rule-evaluation loop: the records of the masked
cells that will live, in increasing index order. -/
theorem nextAliveCells_eq_masked (c : Config) (grid : List Bool) (alive : List CellData) :
    nextAliveCells c grid alive =
      ((List.range (c.GRID_WIDTH * c.GRID_HEIGHT)).filter
        (fun idx : Nat => bitAt (activeRegion c alive) (idx : Int) && cellWillLive c grid idx)).map
        (cellRecord c grid) := by
  unfold nextAliveCells
  have e : evalCell c grid (activeRegion c alive) =
      fun acc (i : Nat) => if (bitAt (activeRegion c alive) (i : Int) && cellWillLive c grid i) = true
        then acc ++ [cellRecord c grid i] else acc := by
    funext acc i; exact evalCell_eq c grid _ acc i
  rw [e, foldl_append_filter]
  simp

/-- With bitmap and list in agreement, a cell outside the mask is dead and has no
live neighbour. -/
theorem unmasked_dead (c : Config) {grid : List Bool} {alive : List CellData}
    (hag : Agrees c grid alive) {x y : Nat} (hx : x < c.GRID_WIDTH) (hy : y < c.GRID_HEIGHT)
    (hm : bitAt (activeRegion c alive) (getGridIndex c x y) = false) :
    bitAt grid (getGridIndex c x y) = false ∧ liveNeighbours c grid x y = 0 := by
  have hno : ∀ cell ∈ alive, ¬ Marks c cell (x + y * c.GRID_WIDTH) := by
    intro cell hc hmk
    rw [getGridIndex_natCast, bitAt_natCast] at hm
    have := (getD_activeRegion c alive (cell_index_lt c hx hy)).mpr ⟨cell, hc, hmk⟩
    rw [hm] at this; exact Bool.false_ne_true this
  constructor
  · cases hb : bitAt grid (getGridIndex c x y)
    · rfl
    · obtain ⟨cell, hc, h1, h2⟩ := (hag x hx y hy).mp hb
      exact absurd ((marks_iff c cell hx hy).mpr (by omega)) (hno cell hc)
  · unfold liveNeighbours
    rw [List.countP_eq_zero]
    intro o ho hal
    simp only [aliveAt, Bool.and_eq_true] at hal
    obtain ⟨hv, hb⟩ := hal
    obtain ⟨a, b, ha, hb1, ha2, hb2⟩ := isValidCell_exists_nat c hv
    rw [ha, hb1] at hb
    obtain ⟨cell, hc, h1, h2⟩ := (hag a ha2 b hb2).mp hb
    have ho' : (-1 ≤ o.1 ∧ o.1 ≤ 1) ∧ (-1 ≤ o.2 ∧ o.2 ≤ 1) := by
      simp only [neighbourOffsets, List.mem_cons, List.mem_singleton, List.not_mem_nil,
        or_false] at ho
      rcases ho with h | h | h | h | h | h | h | h <;> rw [h] <;> decide
    exact absurd ((marks_iff c cell hx hy).mpr (by omega)) (hno cell hc)

/-- With bitmap and list in agreement the mask never hides a cell that would live. -/
theorem masked_of_cellWillLive (c : Config) {grid : List Bool} {alive : List CellData}
    (hag : Agrees c grid alive) {idx : Nat} (hidx : idx < c.GRID_WIDTH * c.GRID_HEIGHT)
    (hl : cellWillLive c grid idx = true) : bitAt (activeRegion c alive) idx = true := by
  have hx := index_mod_lt c hidx
  have hy := index_div_lt c hidx
  have hd := index_decompose c idx
  cases hm : bitAt (activeRegion c alive) idx
  · exfalso
    have hi : getGridIndex c ((idx % c.GRID_WIDTH : Nat) : Int) ((idx / c.GRID_WIDTH : Nat) : Int)
        = (idx : Int) := by
      rw [getGridIndex_natCast, hd]
    have := unmasked_dead c hag hx hy (by rw [hi]; exact hm)
    rw [hi] at this
    unfold cellWillLive at hl
    rw [countNeighbors_eq c grid hx hy, this.1, this.2] at hl
    simp [willLive] at hl
  · rfl

/-- With bitmap and list in agreement the rule-evaluation loop yields the records
of all cells of the grid that will live, in increasing index order. -/
theorem nextAliveCells_eq (c : Config) {grid : List Bool} {alive : List CellData}
    (hag : Agrees c grid alive) :
    nextAliveCells c grid alive =
      ((List.range (c.GRID_WIDTH * c.GRID_HEIGHT)).filter (cellWillLive c grid)).map
        (cellRecord c grid) := by
  rw [nextAliveCells_eq_masked]
  congr 1
  apply List.filter_congr
  intro idx hidx
  rw [List.mem_range] at hidx
  cases hl : cellWillLive c grid idx
  · simp
  · simp [masked_of_cellWillLive c hag hidx hl]
/-! ## Writing the next bitmap -/

theorem length_writeGrid (c : Config) (grid : List Bool) (cells : List CellData) :
    (writeGrid c grid cells).length = grid.length := by
  have h := length_foldl_setBit (fun _ : CellData => true)
    (fun cell => getGridIndex c cell.x cell.y) cells (fillFalse grid)
  simp only [if_true] at h
  rw [writeGrid, h, length_fillFalse]

/-- After the fill-and-write pass a bit is set iff some record of the list addresses it. -/
theorem getD_writeGrid (c : Config) (grid : List Bool) (cells : List CellData)
    (hk : ∀ cell ∈ cells, 0 ≤ getGridIndex c cell.x cell.y) (j : Nat) :
    (writeGrid c grid cells).getD j false = true ↔
      (j < grid.length ∧ ∃ cell ∈ cells, getGridIndex c cell.x cell.y = (j : Int)) := by
  have h := getD_foldl_setBit (fun _ : CellData => true)
    (fun cell => getGridIndex c cell.x cell.y) cells (fun a ha _ => hk a ha) (fillFalse grid) j
  simp only [if_true, getD_fillFalse, length_fillFalse, true_and, Bool.false_eq_true,
    false_or] at h
  rw [writeGrid, h]

/-- Two bitmaps of equal length with the same set bits are equal. -/
theorem bool_list_ext {l₁ l₂ : List Bool} (hlen : l₁.length = l₂.length)
    (h : ∀ j < l₁.length, (l₁.getD j false = true ↔ l₂.getD j false = true)) : l₁ = l₂ := by
  apply List.ext_getElem hlen
  intro j h1 h2
  have := h j h1
  rw [List.getD_eq_getElem _ _ h1, List.getD_eq_getElem _ _ h2] at this
  exact Bool.eq_iff_iff.mpr this

/-- A record function places the record of index `idx` at the cell
`(idx % GRID_WIDTH, idx / GRID_WIDTH)`. -/
theorem getGridIndex_of_coords (c : Config) (f : Nat → CellData)
    (hf : ∀ i, (f i).x = ((i % c.GRID_WIDTH : Nat) : Int) ∧ (f i).y = ((i / c.GRID_WIDTH : Nat) : Int))
    (idx : Nat) : getGridIndex c (f idx).x (f idx).y = (idx : Int) := by
  rw [(hf idx).1, (hf idx).2, getGridIndex_natCast, index_decompose]

theorem cellRecord_coords (c : Config) (grid : List Bool) (i : Nat) :
    (cellRecord c grid i).x = ((i % c.GRID_WIDTH : Nat) : Int) ∧
      (cellRecord c grid i).y = ((i / c.GRID_WIDTH : Nat) : Int) :=
  ⟨rfl, rfl⟩

/-- Writing the records of the cells that pass a test `p` yields the bitmap of `p`. -/
theorem writeGrid_filter (c : Config) (grid : List Bool) (p : Nat → Bool) (f : Nat → CellData)
    (hf : ∀ i, (f i).x = ((i % c.GRID_WIDTH : Nat) : Int) ∧ (f i).y = ((i / c.GRID_WIDTH : Nat) : Int))
    (hlen : grid.length = c.GRID_WIDTH * c.GRID_HEIGHT) :
    writeGrid c grid (((List.range (c.GRID_WIDTH * c.GRID_HEIGHT)).filter p).map f) =
      (List.range (c.GRID_WIDTH * c.GRID_HEIGHT)).map p := by
  apply bool_list_ext
  · rw [length_writeGrid, hlen]; simp
  · intro j hj
    rw [length_writeGrid, hlen] at hj
    rw [getD_writeGrid]
    · simp only [List.mem_map, List.mem_filter, List.mem_range, exists_exists_and_eq_and,
        getGridIndex_of_coords c f hf, Nat.cast_inj, hlen]
      rw [List.getD_eq_getElem _ _ (by simpa using hj)]
      simp only [List.getElem_map, List.getElem_range]
      constructor
      · rintro ⟨-, i, ⟨-, hp⟩, rfl⟩; exact hp
      · intro hp; exact ⟨hj, j, ⟨hj, hp⟩, rfl⟩
    · intro cell hc
      simp only [List.mem_map] at hc
      obtain ⟨i, -, rfl⟩ := hc
      rw [getGridIndex_of_coords c f hf]; exact Int.ofNat_nonneg _

/-- The bitmap of a test `p` agrees with the list of records of the cells passing `p`. -/
theorem agrees_map_filter (c : Config) (p : Nat → Bool) (f : Nat → CellData)
    (hf : ∀ i, (f i).x = ((i % c.GRID_WIDTH : Nat) : Int) ∧ (f i).y = ((i / c.GRID_WIDTH : Nat) : Int)) :
    Agrees c ((List.range (c.GRID_WIDTH * c.GRID_HEIGHT)).map p)
      (((List.range (c.GRID_WIDTH * c.GRID_HEIGHT)).filter p).map f) := by
  intro x hx y hy
  have hlt := cell_index_lt c hx hy
  rw [getGridIndex_natCast, bitAt_natCast, List.getD_eq_getElem _ _ (by simpa using hlt)]
  simp only [List.getElem_map, List.getElem_range, List.mem_map, List.mem_filter, List.mem_range,
    exists_exists_and_eq_and]
  constructor
  · intro hp
    refine ⟨x + y * c.GRID_WIDTH, ⟨hlt, hp⟩, ?_, ?_⟩
    · rw [(hf _).1, cell_index_mod c y hx]
    · rw [(hf _).2, cell_index_div c y hx]
  · rintro ⟨i, ⟨-, hp⟩, h1, h2⟩
    rw [(hf i).1] at h1
    rw [(hf i).2] at h2
    have e1 : i % c.GRID_WIDTH = x := by exact_mod_cast h1
    have e2 : i / c.GRID_WIDTH = y := by exact_mod_cast h2
    have : i = x + y * c.GRID_WIDTH := by rw [← e1, ← e2, index_decompose]
    rw [← this]; exact hp

theorem cellWillLive_eq (c : Config) (grid : List Bool) {idx : Nat}
    (hidx : idx < c.GRID_WIDTH * c.GRID_HEIGHT) :
    cellWillLive c grid idx = lifeRule (bitAt grid idx)
      (liveNeighbours c grid ((idx % c.GRID_WIDTH : Nat) : Int) ((idx / c.GRID_WIDTH : Nat) : Int)) := by
  unfold cellWillLive
  rw [countNeighbors_eq c grid (index_mod_lt c hidx) (index_div_lt c hidx), willLive_eq_lifeRule]

theorem map_cellWillLive_eq (c : Config) (grid : List Bool) :
    (List.range (c.GRID_WIDTH * c.GRID_HEIGHT)).map (cellWillLive c grid) =
      bruteForceStep c grid := by
  unfold bruteForceStep
  apply List.map_congr_left
  intro idx hidx
  exact cellWillLive_eq c grid (List.mem_range.mp hidx)

/-! ## One unpaused tick -/

theorem tick_unpaused (c : Config) (s : State) (hp : s.isPaused = false) :
    updateMassive2DGameOfLife c s =
      { currentGrid := writeGrid c s.nextGrid (nextAliveCells c s.currentGrid s.aliveCellsData)
        nextGrid := s.currentGrid
        aliveCellsData := nextAliveCells c s.currentGrid s.aliveCellsData
        spatialGrid := rebuildSpatialGrid c s.spatialGrid
          (nextAliveCells c s.currentGrid s.aliveCellsData)
        gameStats :=
          { totalCells := (nextAliveCells c s.currentGrid s.aliveCellsData).length
            generation := (s.gameStats.generation + 1) % 2 ^ c.sizeBits }
        isPaused := false
        renderBuffer :=
          { instances := buildRenderData (nextAliveCells c s.currentGrid s.aliveCellsData)
              (min (nextAliveCells c s.currentGrid s.aliveCellsData).length MAX_INSTANCES)
            instanceCount := (buildRenderData (nextAliveCells c s.currentGrid s.aliveCellsData)
              (min (nextAliveCells c s.currentGrid s.aliveCellsData).length MAX_INSTANCES)).length
            needsUpdate := true } } := by
  simp [updateMassive2DGameOfLife, hp]

/-- The live-cell list after an unpaused tick from a state in agreement. -/
theorem tick_aliveCellsData (c : Config) (s : State) (hp : s.isPaused = false)
    (hag : Agrees c s.currentGrid s.aliveCellsData) :
    (updateMassive2DGameOfLife c s).aliveCellsData =
      ((List.range (c.GRID_WIDTH * c.GRID_HEIGHT)).filter (cellWillLive c s.currentGrid)).map
        (cellRecord c s.currentGrid) := by
  rw [tick_unpaused c s hp]; exact nextAliveCells_eq c hag

/-- The current bitmap after an unpaused tick from a state in agreement is one
generation of the reference evaluator. -/
theorem tick_currentGrid (c : Config) (s : State) (hs : s.Sized c) (hp : s.isPaused = false)
    (hag : Agrees c s.currentGrid s.aliveCellsData) :
    (updateMassive2DGameOfLife c s).currentGrid = bruteForceStep c s.currentGrid := by
  rw [tick_unpaused c s hp]
  show writeGrid c s.nextGrid (nextAliveCells c s.currentGrid s.aliveCellsData) = _
  rw [nextAliveCells_eq c hag, writeGrid_filter c _ _ _ (cellRecord_coords c _) hs.2,
    map_cellWillLive_eq]

theorem tick_isPaused (c : Config) (s : State) :
    (updateMassive2DGameOfLife c s).isPaused = s.isPaused := by
  unfold updateMassive2DGameOfLife
  split <;> rfl

theorem length_bruteForceStep (c : Config) (grid : List Bool) :
    (bruteForceStep c grid).length = c.GRID_WIDTH * c.GRID_HEIGHT := by
  simp [bruteForceStep]

/-- Reading the reference evaluator's bitmap at an in-bounds cell. -/
theorem bitAt_bruteForceStep (c : Config) (grid : List Bool) {x y : Nat}
    (hx : x < c.GRID_WIDTH) (hy : y < c.GRID_HEIGHT) :
    bitAt (bruteForceStep c grid) (getGridIndex c x y) =
      lifeRule (bitAt grid (getGridIndex c x y)) (liveNeighbours c grid x y) := by
  rw [getGridIndex_natCast, bitAt_natCast]
  have hlt := cell_index_lt c hx hy
  rw [List.getD_eq_getElem _ _ (by rw [length_bruteForceStep]; exact hlt)]
  simp only [bruteForceStep, List.getElem_map, List.getElem_range]
  rw [cell_index_mod c y hx, cell_index_div c y hx]

/-! ## Invariants of the tick -/

/-- An unpaused tick leaves a state whose bitmap and list agree, whatever the
state before. -/
theorem tick_agrees (c : Config) (s : State) (hs : s.Sized c) (hp : s.isPaused = false) :
    Agrees c (updateMassive2DGameOfLife c s).currentGrid
      (updateMassive2DGameOfLife c s).aliveCellsData := by
  rw [tick_unpaused c s hp]
  show Agrees c (writeGrid c s.nextGrid (nextAliveCells c s.currentGrid s.aliveCellsData))
    (nextAliveCells c s.currentGrid s.aliveCellsData)
  rw [nextAliveCells_eq_masked, writeGrid_filter c _ _ _ (cellRecord_coords c _) hs.2]
  exact agrees_map_filter c _ _ (cellRecord_coords c _)

theorem tick_sized (c : Config) (s : State) (hs : s.Sized c) :
    (updateMassive2DGameOfLife c s).Sized c := by
  unfold updateMassive2DGameOfLife
  split
  · exact hs
  · exact ⟨by simp only [length_writeGrid]; exact hs.2, hs.1⟩

/-- The number of set bits of the bitmap of a test is the number of indices passing it. -/
theorem liveCount_map (p : Nat → Bool) (l : List Nat) :
    liveCount (l.map p) = (l.filter p).length := by
  unfold liveCount
  rw [List.count_eq_countP, List.countP_map, List.countP_eq_length_filter]
  congr 1
  apply List.filter_congr
  intro x _
  simp only [Function.comp_apply]
  cases p x <;> rfl

/-- After an unpaused tick from a state in agreement, `totalCells` is the number
of live cells of the new bitmap. -/
theorem tick_totalCells (c : Config) (s : State) (hs : s.Sized c) (hp : s.isPaused = false)
    (hag : Agrees c s.currentGrid s.aliveCellsData) :
    (updateMassive2DGameOfLife c s).gameStats.totalCells =
      liveCount (updateMassive2DGameOfLife c s).currentGrid := by
  rw [tick_currentGrid c s hs hp hag, ← map_cellWillLive_eq, liveCount_map, tick_unpaused c s hp]
  show (nextAliveCells c s.currentGrid s.aliveCellsData).length = _
  rw [nextAliveCells_eq c hag, List.length_map]

/-! ## The seeding loop -/

/-- Two nested counting loops visit the cells in row-major order. -/
theorem foldl_rows {σ : Type} (f : Nat → Nat → σ → σ) (w h : Nat) (st : σ) :
    (List.range h).foldl (fun st y => (List.range w).foldl (fun st x => f y x st) st) st =
      (List.range (w * h)).foldl (fun st i => f (i / w) (i % w) st) st := by
  induction h with
  | zero => simp
  | succ h ih =>
    rw [List.range_succ, List.foldl_append, ih, Nat.mul_succ, List.range_add, List.foldl_append,
      List.foldl_map]
    simp only [List.foldl_cons, List.foldl_nil]
    apply List.foldl_ext
    intro a x hx
    rw [List.mem_range] at hx
    have hw : 0 < w := by omega
    have e1 : (w * h + x) / w = h := by
      rw [Nat.add_comm, Nat.add_mul_div_left _ _ hw, Nat.div_eq_of_lt hx]; simp
    have e2 : (w * h + x) % w = x := by
      rw [Nat.add_comm, Nat.add_mul_mod_self_left]; exact Nat.mod_eq_of_lt hx
    rw [e1, e2]

theorem seedGrid_eq_foldl (c : Config) (density : ℚ) (r : Nat → ℚ) (st : SeedLoop) :
    seedGrid c density r st =
      (List.range (c.GRID_WIDTH * c.GRID_HEIGHT)).foldl
        (fun st i => seedCell c density r (i / c.GRID_WIDTH) (i % c.GRID_WIDTH) st) st := by
  unfold seedGrid seedRow
  exact foldl_rows (fun y x st => seedCell c density r y x st) _ _ st

/-- The state of the seeding loop after the first `n` cells: draw number `i`
decided cell number `i`, and bitmap and buckets were filled from the records
appended so far. -/
theorem seed_loop (c : Config) (density : ℚ) (r : Nat → ℚ) (g : List Bool)
    (sg : List (List (List Int))) (n : Nat) :
    (List.range n).foldl
        (fun st i => seedCell c density r (i / c.GRID_WIDTH) (i % c.GRID_WIDTH) st)
        { currentGrid := g, aliveCellsData := [], spatialGrid := sg, draws := 0 } =
      { currentGrid :=
          (((List.range n).filter (seedSelected density r)).map (seedRecord c)).foldl
            (fun g cell => setBit g (getGridIndex c cell.x cell.y)) g
        aliveCellsData := ((List.range n).filter (seedSelected density r)).map (seedRecord c)
        spatialGrid :=
          (((List.range n).filter (seedSelected density r)).map (seedRecord c)).foldl
            (fun g cell => insertSpatial c g cell.x cell.y (getGridIndex c cell.x cell.y)) sg
        draws := n } := by
  induction n with
  | zero => simp
  | succ n ih =>
    rw [List.range_succ, List.foldl_append, ih]
    simp only [List.foldl_cons, List.foldl_nil, seedCell]
    by_cases h : r n < density
    · have hs : seedSelected density r n = true := by simp [seedSelected, h]
      simp [h, hs, List.filter_append, List.filter_cons, List.foldl_append, seedRecord]
    · have hs : seedSelected density r n = false := by simp [seedSelected, h]
      simp [h, hs, List.filter_append, List.filter_cons]

/-- The effect of `initializeRandomPattern`: the live-cell list is the list of
selected cells, bitmap and buckets are rebuilt from it, the counters are reset. -/
theorem initializeRandomPattern_eq (c : Config) (density : ℚ) (r : Nat → ℚ) (s : State) :
    initializeRandomPattern c density r s =
      { s with
        currentGrid := writeGrid c s.currentGrid (seedCells c density r)
        nextGrid := fillFalse s.nextGrid
        aliveCellsData := seedCells c density r
        spatialGrid := rebuildSpatialGrid c s.spatialGrid (seedCells c density r)
        gameStats := { totalCells := (seedCells c density r).length, generation := 0 } } := by
  unfold initializeRandomPattern
  rw [seedGrid_eq_foldl, seed_loop]
  rfl

theorem seedRecord_coords (c : Config) (i : Nat) :
    (seedRecord c i).x = ((i % c.GRID_WIDTH : Nat) : Int) ∧
      (seedRecord c i).y = ((i / c.GRID_WIDTH : Nat) : Int) :=
  ⟨rfl, rfl⟩

theorem init_currentGrid (c : Config) (density : ℚ) (r : Nat → ℚ) (s : State)
    (hs : s.Sized c) :
    (initializeRandomPattern c density r s).currentGrid =
      (List.range (c.GRID_WIDTH * c.GRID_HEIGHT)).map (seedSelected density r) := by
  rw [initializeRandomPattern_eq]
  exact writeGrid_filter c _ _ _ (seedRecord_coords c) hs.1

theorem init_agrees (c : Config) (density : ℚ) (r : Nat → ℚ) (s : State) (hs : s.Sized c) :
    Agrees c (initializeRandomPattern c density r s).currentGrid
      (initializeRandomPattern c density r s).aliveCellsData := by
  rw [init_currentGrid c density r s hs, initializeRandomPattern_eq]
  exact agrees_map_filter c _ _ (seedRecord_coords c)

theorem init_sized (c : Config) (density : ℚ) (r : Nat → ℚ) (s : State) (hs : s.Sized c) :
    (initializeRandomPattern c density r s).Sized c := by
  rw [initializeRandomPattern_eq]
  exact ⟨by simp only [length_writeGrid]; exact hs.1, by simp only [length_fillFalse]; exact hs.2⟩

/-! ## The bucket grid -/

theorem shaped_clear (c : Config) {sg : List (List (List Int))} (h : Shaped c sg) :
    Shaped c (clearSpatialGrid sg) := by
  refine ⟨by simpa [clearSpatialGrid] using h.1, ?_⟩
  intro row hrow
  simp only [clearSpatialGrid, List.mem_map] at hrow
  obtain ⟨row0, h0, rfl⟩ := hrow
  simpa using h.2 row0 h0

theorem shaped_pushBucket (c : Config) {sg : List (List (List Int))} (h : Shaped c sg)
    (gy gx idx : Int) : Shaped c (pushBucket sg gy gx idx) := by
  refine ⟨by simpa [pushBucket] using h.1, ?_⟩
  intro row hrow
  obtain ⟨k, hk, rfl⟩ := List.getElem_of_mem hrow
  simp only [pushBucket, List.getElem_modify]
  have hk2 : k < sg.length := by simpa [pushBucket] using hk
  split
  · rw [List.length_modify]; exact h.2 _ (List.getElem_mem hk2)
  · exact h.2 _ (List.getElem_mem hk2)

theorem shaped_insertSpatial (c : Config) {sg : List (List (List Int))} (h : Shaped c sg)
    (x y idx : Int) : Shaped c (insertSpatial c sg x y idx) := by
  unfold insertSpatial
  simp only
  split
  · exact shaped_pushBucket c h _ _ _
  · exact h

theorem bucket_clear (sg : List (List (List Int))) (gy gx : Nat) :
    bucket (clearSpatialGrid sg) gy gx = [] := by
  simp only [bucket, clearSpatialGrid, List.getD_eq_getElem?_getD, List.getElem?_map]
  cases sg[gy]? with
  | none => simp
  | some row =>
    simp only [Option.map_some', Option.getD_some, List.getElem?_map]
    cases row[gx]? <;> simp

/-- Reading a bucket after a `push_back` into the bucket `(a, b)`. -/
theorem bucket_pushBucket (c : Config) {sg : List (List (List Int))} (h : Shaped c sg)
    (a b : Nat) (idx : Int) {gy gx : Nat} (hgy : gy < c.GRID_SIZE) (hgx : gx < c.GRID_SIZE) :
    bucket (pushBucket sg a b idx) gy gx =
      if a = gy ∧ b = gx then bucket sg gy gx ++ [idx] else bucket sg gy gx := by
  have hgy2 : gy < sg.length := by rw [h.1]; exact hgy
  have hrow : sg[gy]? = some sg[gy] := List.getElem?_eq_getElem hgy2
  have hgx2 : gx < sg[gy].length := by rw [h.2 _ (List.getElem_mem hgy2)]; exact hgx
  have hb : sg[gy][gx]? = some sg[gy][gx] := List.getElem?_eq_getElem hgx2
  simp only [bucket, pushBucket, Int.toNat_ofNat, List.getD_eq_getElem?_getD,
    List.getElem?_modify, hrow, Option.map_eq_map, Option.map_some', Option.getD_some]
  by_cases h1 : a = gy
  · subst h1
    by_cases h2 : b = gx
    · subst h2
      simp [List.getElem?_modify, hb]
    · simp [List.getElem?_modify, hb, h2]
  · simp [h1, hb]

/-- Reading a bucket after the guarded insertion of one cell. -/
theorem bucket_insertSpatial (c : Config) {sg : List (List (List Int))} (h : Shaped c sg)
    (cell : CellData) (idx : Int) {gy gx : Nat} (hgy : gy < c.GRID_SIZE) (hgx : gx < c.GRID_SIZE) :
    bucket (insertSpatial c sg cell.x cell.y idx) gy gx =
      if inChunk c gy gx cell = true then bucket sg gy gx ++ [idx] else bucket sg gy gx := by
  unfold insertSpatial inChunk
  simp only
  split
  · rename_i hg
    obtain ⟨h1, h2, h3, h4⟩ := hg
    obtain ⟨a, ha⟩ := Int.eq_ofNat_of_zero_le h1
    obtain ⟨b, hb⟩ := Int.eq_ofNat_of_zero_le h3
    rw [ha, hb, bucket_pushBucket c h b a idx hgy hgx]
    simp only [Nat.cast_inj, decide_eq_true_eq]
    by_cases hh : b = gy ∧ a = gx
    · rw [if_pos hh, if_pos ⟨hh.2, hh.1⟩]
    · rw [if_neg hh, if_neg (fun h => hh ⟨h.2, h.1⟩)]
  · rename_i hg
    rw [if_neg]
    simp only [decide_eq_true_eq]
    rintro ⟨h1, h2⟩
    apply hg
    rw [h1, h2]
    refine ⟨?_, ?_, ?_, ?_⟩ <;> omega

theorem shaped_foldl_insert (c : Config) (cells : List CellData) {sg : List (List (List Int))}
    (h : Shaped c sg) :
    Shaped c (cells.foldl
      (fun g cell => insertSpatial c g cell.x cell.y (getGridIndex c cell.x cell.y)) sg) := by
  induction cells generalizing sg with
  | nil => exact h
  | cons a l ih => exact ih (shaped_insertSpatial c h _ _ _)

theorem bucket_foldl_insert (c : Config) (cells : List CellData) {sg : List (List (List Int))}
    (h : Shaped c sg) {gy gx : Nat} (hgy : gy < c.GRID_SIZE) (hgx : gx < c.GRID_SIZE) :
    bucket (cells.foldl
        (fun g cell => insertSpatial c g cell.x cell.y (getGridIndex c cell.x cell.y)) sg) gy gx =
      bucket sg gy gx ++
        (cells.filter (inChunk c gy gx)).map (fun cell => getGridIndex c cell.x cell.y) := by
  induction cells generalizing sg with
  | nil => simp
  | cons a l ih =>
    simp only [List.foldl_cons]
    rw [ih (shaped_insertSpatial c h _ _ _), bucket_insertSpatial c h a _ hgy hgx]
    by_cases hin : inChunk c gy gx a = true
    · simp [hin, List.filter_cons]
    · simp [hin, List.filter_cons]

theorem shaped_rebuild (c : Config) (cells : List CellData) {sg : List (List (List Int))}
    (h : Shaped c sg) : Shaped c (rebuildSpatialGrid c sg cells) :=
  shaped_foldl_insert c cells (shaped_clear c h)

/-- After a rebuild every bucket holds the indices of the records of its chunk,
in list order, and nothing else. -/
theorem bucket_rebuild (c : Config) (cells : List CellData) {sg : List (List (List Int))}
    (h : Shaped c sg) {gy gx : Nat} (hgy : gy < c.GRID_SIZE) (hgx : gx < c.GRID_SIZE) :
    bucket (rebuildSpatialGrid c sg cells) gy gx =
      (cells.filter (inChunk c gy gx)).map (fun cell => getGridIndex c cell.x cell.y) := by
  unfold rebuildSpatialGrid
  rw [bucket_foldl_insert c cells (shaped_clear c h) hgy hgx, bucket_clear]
  simp

/-- Membership in the flattened bucket grid is membership in one of its buckets. -/
theorem mem_flatten_iff_bucket (c : Config) {sg : List (List (List Int))} (h : Shaped c sg)
    (i : Int) :
    i ∈ sg.flatten.flatten ↔ ∃ gy < c.GRID_SIZE, ∃ gx < c.GRID_SIZE, i ∈ bucket sg gy gx := by
  simp only [List.mem_flatten]
  constructor
  · rintro ⟨b, ⟨row, hrow, hb⟩, hi⟩
    obtain ⟨gy, hgy, rfl⟩ := List.getElem_of_mem hrow
    obtain ⟨gx, hgx, rfl⟩ := List.getElem_of_mem hb
    refine ⟨gy, by rw [← h.1]; exact hgy, gx, ?_, ?_⟩
    · rw [← h.2 _ (List.getElem_mem hgy)]; exact hgx
    · simp only [bucket, List.getD_eq_getElem?_getD, List.getElem?_eq_getElem hgy,
        Option.getD_some, List.getElem?_eq_getElem hgx]
      exact hi
  · rintro ⟨gy, hgy, gx, hgx, hi⟩
    have hgy2 : gy < sg.length := by rw [h.1]; exact hgy
    have hgx2 : gx < sg[gy].length := by rw [h.2 _ (List.getElem_mem hgy2)]; exact hgx
    simp only [bucket, List.getD_eq_getElem?_getD, List.getElem?_eq_getElem hgy2,
      Option.getD_some, List.getElem?_eq_getElem hgx2] at hi
    exact ⟨_, ⟨_, List.getElem_mem hgy2, List.getElem_mem hgx2⟩, hi⟩

/-- When `GRID_SIZE * CHUNK_SIZE` covers both grid dimensions, every in-bounds
cell has a chunk inside the bucket range. -/
theorem inChunk_of_inBounds (c : Config)
    (hw : c.GRID_WIDTH ≤ c.GRID_SIZE * c.CHUNK_SIZE)
    (hh : c.GRID_HEIGHT ≤ c.GRID_SIZE * c.CHUNK_SIZE)
    (cell : CellData) {x y : Nat} (hx : x < c.GRID_WIDTH) (hy : y < c.GRID_HEIGHT)
    (hcx : cell.x = x) (hcy : cell.y = y) :
    ∃ gy < c.GRID_SIZE, ∃ gx < c.GRID_SIZE, inChunk c gy gx cell = true := by
  refine ⟨y / c.CHUNK_SIZE, ?_, x / c.CHUNK_SIZE, ?_, ?_⟩
  · apply Nat.div_lt_of_lt_mul; rw [Nat.mul_comm]; omega
  · apply Nat.div_lt_of_lt_mul; rw [Nat.mul_comm]; omega
  · simp only [inChunk, hcx, hcy, decide_eq_true_eq]
    exact ⟨(Int.ofNat_tdiv _ _).symm, (Int.ofNat_tdiv _ _).symm⟩

/-- A rebuilt bucket grid satisfies the bucket invariant for a list of in-bounds
records. -/
theorem bucketsExact_of_rebuild (c : Config)
    (hw : c.GRID_WIDTH ≤ c.GRID_SIZE * c.CHUNK_SIZE)
    (hh : c.GRID_HEIGHT ≤ c.GRID_SIZE * c.CHUNK_SIZE)
    (s : State) (sg : List (List (List Int))) (hsg : Shaped c sg)
    (hspatial : s.spatialGrid = rebuildSpatialGrid c sg s.aliveCellsData)
    (hin : ∀ cell ∈ s.aliveCellsData, ∃ x y : Nat, x < c.GRID_WIDTH ∧ y < c.GRID_HEIGHT ∧
      cell.x = x ∧ cell.y = y) :
    BucketsExact c s := by
  have hdrop : ∀ cell ∈ s.aliveCellsData,
      ∃ gy < c.GRID_SIZE, ∃ gx < c.GRID_SIZE, inChunk c gy gx cell = true := by
    intro cell hc
    obtain ⟨x, y, hx, hy, hcx, hcy⟩ := hin cell hc
    exact inChunk_of_inBounds c hw hh cell hx hy hcx hcy
  refine ⟨?_, hdrop, ?_⟩
  · intro gy hgy gx hgx
    rw [hspatial]; exact bucket_rebuild c _ hsg hgy hgx
  · intro i
    rw [hspatial, mem_flatten_iff_bucket c (shaped_rebuild c _ hsg)]
    constructor
    · rintro ⟨gy, hgy, gx, hgx, hi⟩
      rw [bucket_rebuild c _ hsg hgy hgx, List.mem_map] at hi
      obtain ⟨cell, hcell, rfl⟩ := hi
      exact ⟨cell, (List.mem_filter.mp hcell).1, rfl⟩
    · rintro ⟨cell, hc, rfl⟩
      obtain ⟨gy, hgy, gx, hgx, hin2⟩ := hdrop cell hc
      refine ⟨gy, hgy, gx, hgx, ?_⟩
      rw [bucket_rebuild c _ hsg hgy hgx, List.mem_map]
      exact ⟨cell, List.mem_filter.mpr ⟨hc, hin2⟩, rfl⟩

/-! ## The initial state and the seed list -/

theorem initial_sized (c : Config) : (State.initial c).Sized c := by
  simp [State.Sized, State.initial]

theorem initial_shaped (c : Config) : Shaped c (State.initial c).spatialGrid := by
  refine ⟨by simp [State.initial], ?_⟩
  intro row hrow
  simp only [State.initial] at hrow
  rw [List.eq_of_mem_replicate hrow, List.length_replicate]

theorem bitAt_replicate_false (n : Nat) (i : Int) : bitAt (List.replicate n false) i = false := by
  simp only [bitAt, List.getD_eq_getElem?_getD, List.getElem?_replicate]
  split <;> rfl

theorem initial_agrees (c : Config) :
    Agrees c (State.initial c).currentGrid (State.initial c).aliveCellsData := by
  intro x _ y _
  simp [State.initial, bitAt_replicate_false]

/-- Filtering and mapping the cell indices in increasing order lists the cells
row by row. -/
theorem filter_map_rows {β : Type} (q : Nat → Bool) (f : Nat → β) (w h : Nat) :
    ((List.range (w * h)).filter q).map f =
      (List.range h).flatMap (fun y =>
        ((List.range w).filter (fun x => q (x + y * w))).map (fun x => f (x + y * w))) := by
  induction h with
  | zero => simp
  | succ h ih =>
    rw [List.range_succ, List.flatMap_append, ← ih, Nat.mul_succ, List.range_add,
      List.filter_append, List.map_append]
    simp only [List.flatMap_cons, List.flatMap_nil, List.append_nil]
    congr 1
    rw [List.filter_map, List.map_map]
    have e : (fun x => w * h + x) = (fun x => x + h * w) := by
      funext x; rw [Nat.mul_comm, Nat.add_comm]
    rw [e]
    rfl

theorem seedCells_eq_seedSpec (c : Config) (density : ℚ) (r : Nat → ℚ) :
    seedCells c density r = seedSpec c density r := by
  unfold seedCells seedSpec
  rw [filter_map_rows]
  apply List.flatMap_congr
  intro y _
  have h1 : ∀ x ∈ List.range c.GRID_WIDTH,
      seedSelected density r (x + y * c.GRID_WIDTH) =
        decide (r (x + y * c.GRID_WIDTH) < density) := fun _ _ => rfl
  rw [List.filter_congr h1]
  apply List.map_congr_left
  intro x hx
  have hx2 : x < c.GRID_WIDTH := List.mem_range.mp (List.mem_filter.mp hx).1
  simp only [seedRecord, cell_index_mod c y hx2, cell_index_div c y hx2]

/-- The records of the tick are in bounds. -/
theorem nextAliveCells_inBounds (c : Config) (grid : List Bool) (alive : List CellData) :
    ∀ cell ∈ nextAliveCells c grid alive, ∃ x y : Nat, x < c.GRID_WIDTH ∧ y < c.GRID_HEIGHT ∧
      cell.x = x ∧ cell.y = y := by
  intro cell hc
  rw [nextAliveCells_eq_masked, List.mem_map] at hc
  obtain ⟨i, hi, rfl⟩ := hc
  have hlt := List.mem_range.mp (List.mem_filter.mp hi).1
  exact ⟨_, _, index_mod_lt c hlt, index_div_lt c hlt, rfl, rfl⟩

/-- The seed records are in bounds. -/
theorem seedCells_inBounds (c : Config) (density : ℚ) (r : Nat → ℚ) :
    ∀ cell ∈ seedCells c density r, ∃ x y : Nat, x < c.GRID_WIDTH ∧ y < c.GRID_HEIGHT ∧
      cell.x = x ∧ cell.y = y := by
  intro cell hc
  rw [seedCells, List.mem_map] at hc
  obtain ⟨i, hi, rfl⟩ := hc
  have hlt := List.mem_range.mp (List.mem_filter.mp hi).1
  exact ⟨_, _, index_mod_lt c hlt, index_div_lt c hlt, rfl, rfl⟩

theorem clearSpatialGrid_of_shaped (c : Config) {sg : List (List (List Int))} (h : Shaped c sg) :
    clearSpatialGrid sg = List.replicate c.GRID_SIZE (List.replicate c.GRID_SIZE []) := by
  apply List.ext_getElem
  · simpa [clearSpatialGrid] using h.1
  · intro i h1 h2
    have hi : i < sg.length := by simpa [clearSpatialGrid] using h1
    simp only [clearSpatialGrid, List.getElem_map, List.getElem_replicate]
    apply List.ext_getElem
    · simpa using h.2 _ (List.getElem_mem hi)
    · intro j _ _
      simp

theorem fillFalse_of_length (v : List Bool) (n : Nat) (h : v.length = n) :
    fillFalse v = List.replicate n false := by
  subst h
  apply List.ext_getElem
  · simp [fillFalse]
  · intro i _ _
    simp [fillFalse]

/-! ## Patterns -/

theorem neighbourOffsets_bounds :
    ∀ o ∈ neighbourOffsets, -1 ≤ o.1 ∧ o.1 ≤ 1 ∧ -1 ≤ o.2 ∧ o.2 ≤ 1 := by
  decide

/-- Far from the support of a pattern the rule yields a dead cell. -/
theorem relNext_far (rel : Int → Int → Bool)
    (hsupp : ∀ i j, rel i j = true → -1 ≤ i ∧ i ≤ 1 ∧ -1 ≤ j ∧ j ≤ 1) (i j : Int)
    (hfar : i < -2 ∨ 2 < i ∨ j < -2 ∨ 2 < j) : relNext rel i j = false := by
  have h0 : rel i j = false := by
    cases h : rel i j
    · rfl
    · have := hsupp i j h; omega
  have h1 : relCount rel i j = 0 := by
    unfold relCount
    rw [List.countP_eq_zero]
    intro o ho hr
    have hb := neighbourOffsets_bounds o ho
    have := hsupp _ _ hr
    omega
  simp [relNext, h0, h1, lifeRule]

/-- A pattern supported near its anchor evolves into `next` everywhere as soon
as it does so on the 5 x 5 box around the anchor. -/
theorem relNext_eq_of_box (rel next : Int → Int → Bool)
    (hsupp : ∀ i j, rel i j = true → -1 ≤ i ∧ i ≤ 1 ∧ -1 ≤ j ∧ j ≤ 1)
    (hnext : ∀ i j, next i j = true → -2 ≤ i ∧ i ≤ 2 ∧ -2 ≤ j ∧ j ≤ 2)
    (hbox : ∀ i : Int, -2 ≤ i → i < 3 → ∀ j : Int, -2 ≤ j → j < 3 → relNext rel i j = next i j)
    (i j : Int) : relNext rel i j = next i j := by
  by_cases h : -2 ≤ i ∧ i < 3 ∧ -2 ≤ j ∧ j < 3
  · exact hbox i h.1 h.2.1 j h.2.2.1 h.2.2.2
  · rw [relNext_far rel hsupp i j (by omega)]
    cases hn : next i j
    · rfl
    · have := hnext i j hn; omega

theorem block_next : ∀ i j : Int, relNext blockRel i j = blockRel i j := by
  apply relNext_eq_of_box
  · intro i j h; simp only [blockRel, decide_eq_true_eq] at h; omega
  · intro i j h; simp only [blockRel, decide_eq_true_eq] at h; omega
  · decide

theorem blinkerH_next : ∀ i j : Int, relNext blinkerHRel i j = blinkerVRel i j := by
  apply relNext_eq_of_box
  · intro i j h; simp only [blinkerHRel, decide_eq_true_eq] at h; omega
  · intro i j h; simp only [blinkerVRel, decide_eq_true_eq] at h; omega
  · decide

theorem blinkerV_next : ∀ i j : Int, relNext blinkerVRel i j = blinkerHRel i j := by
  apply relNext_eq_of_box
  · intro i j h; simp only [blinkerVRel, decide_eq_true_eq] at h; omega
  · intro i j h; simp only [blinkerHRel, decide_eq_true_eq] at h; omega
  · decide

theorem lone_next : ∀ i j : Int, relNext loneRel i j = emptyRel i j := by
  apply relNext_eq_of_box
  · intro i j h; simp only [loneRel, decide_eq_true_eq] at h; omega
  · intro i j h; simp [emptyRel] at h
  · decide

theorem aliveAt_natCast (c : Config) (grid : List Bool) {x y : Nat} (hx : x < c.GRID_WIDTH)
    (hy : y < c.GRID_HEIGHT) :
    aliveAt c grid x y = bitAt grid (getGridIndex c x y) := by
  simp [aliveAt, (isValidCell_natCast c x y).mpr ⟨hx, hy⟩]

/-- A bitmap whose in-bounds bits follow a pattern that fits into the grid shows
that pattern. -/
theorem showsPattern_of_bits (c : Config) (grid : List Bool) (ax ay : Int)
    (rel : Int → Int → Bool)
    (hbits : ∀ x < c.GRID_WIDTH, ∀ y < c.GRID_HEIGHT,
      bitAt grid (getGridIndex c x y) = rel ((x : Int) - ax) ((y : Int) - ay))
    (hfit : ∀ x y : Int, rel (x - ax) (y - ay) = true → isValidCell c x y = true) :
    ShowsPattern c grid ax ay rel := by
  intro x y
  cases hv : isValidCell c x y
  · cases hr : rel (x - ax) (y - ay)
    · simp [aliveAt, hv]
    · rw [hfit x y hr] at hv; exact absurd hv (by decide)
  · obtain ⟨a, b, rfl, rfl, ha, hb⟩ := isValidCell_exists_nat c hv
    rw [aliveAt_natCast c grid ha hb, hbits a ha b hb]

theorem bits_of_showsPattern (c : Config) {grid : List Bool} {ax ay : Int}
    {rel : Int → Int → Bool} (h : ShowsPattern c grid ax ay rel) {x y : Nat}
    (hx : x < c.GRID_WIDTH) (hy : y < c.GRID_HEIGHT) :
    bitAt grid (getGridIndex c x y) = rel ((x : Int) - ax) ((y : Int) - ay) := by
  rw [← aliveAt_natCast c grid hx hy]; exact h x y

/-- In a bitmap that shows a pattern the neighbour count is the count in the pattern. -/
theorem liveNeighbours_of_pattern (c : Config) {grid : List Bool} {ax ay : Int}
    {rel : Int → Int → Bool} (h : ShowsPattern c grid ax ay rel) (x y : Int) :
    liveNeighbours c grid x y = relCount rel (x - ax) (y - ay) := by
  unfold liveNeighbours relCount
  congr 1
  funext o
  rw [h]
  congr 1 <;> ring

/-- The rule of the code on a bitmap that shows a pattern. -/
theorem cellWillLive_of_pattern (c : Config) {grid : List Bool} {ax ay : Int}
    {rel : Int → Int → Bool} (h : ShowsPattern c grid ax ay rel) {x y : Nat}
    (hx : x < c.GRID_WIDTH) (hy : y < c.GRID_HEIGHT) :
    cellWillLive c grid (x + y * c.GRID_WIDTH) = relNext rel ((x : Int) - ax) ((y : Int) - ay) := by
  rw [cellWillLive_eq c grid (cell_index_lt c hx hy), cell_index_mod c y hx, cell_index_div c y hx,
    liveNeighbours_of_pattern c h, ← getGridIndex_natCast, bits_of_showsPattern c h hx hy]
  rfl

/-- The record of the code for a cell of a bitmap that shows a pattern. -/
theorem cellRecord_of_pattern (c : Config) {grid : List Bool} {ax ay : Int}
    {rel : Int → Int → Bool} (h : ShowsPattern c grid ax ay rel) {x y : Nat}
    (hx : x < c.GRID_WIDTH) (hy : y < c.GRID_HEIGHT) :
    cellRecord c grid (x + y * c.GRID_WIDTH) =
      { x := x, y := y, neighbors := relCount rel ((x : Int) - ax) ((y : Int) - ay),
        isNewBorn := !rel ((x : Int) - ax) ((y : Int) - ay) } := by
  have hb := bits_of_showsPattern c h hx hy
  rw [getGridIndex_natCast] at hb
  have hn := liveNeighbours_le c grid x y
  simp only [cellRecord, cell_index_mod c y hx, cell_index_div c y hx,
    countNeighbors_eq c grid hx hy, hb, ← liveNeighbours_of_pattern c h]
  congr 1
  omega

/-- One unpaused tick turns a shown pattern into its successor, provided the
successor fits into the grid. -/
theorem tick_showsPattern (c : Config) (s : State) (hs : s.Sized c)
    (hag : Agrees c s.currentGrid s.aliveCellsData) (hp : s.isPaused = false)
    (ax ay : Int) (rel next : Int → Int → Bool)
    (h : ShowsPattern c s.currentGrid ax ay rel)
    (hnext : ∀ i j, relNext rel i j = next i j)
    (hfit : ∀ x y : Int, next (x - ax) (y - ay) = true → isValidCell c x y = true) :
    ShowsPattern c (updateMassive2DGameOfLife c s).currentGrid ax ay next := by
  apply showsPattern_of_bits c _ ax ay next _ hfit
  intro x hx y hy
  rw [tick_currentGrid c s hs hp hag, bitAt_bruteForceStep c _ hx hy,
    liveNeighbours_of_pattern c h, bits_of_showsPattern c h hx hy]
  exact hnext _ _

/-- Filtering the indices below `n` by a test that holds exactly on a strictly
increasing list yields that list. -/
theorem filter_range_eq (p : Nat → Bool) (n : Nat) (l : List Nat)
    (hsorted : l.Sorted (· < ·)) (hmem : ∀ i, i ∈ l ↔ (i < n ∧ p i = true)) :
    (List.range n).filter p = l := by
  apply List.eq_of_perm_of_sorted (r := (· < ·)) _ ((List.sorted_lt_range n).filter p) hsorted
  rw [List.perm_ext_iff_of_nodup ((List.nodup_range n).filter p) hsorted.nodup]
  intro i
  rw [hmem, List.mem_filter, List.mem_range]

/-- The live-cell list after an unpaused tick from a state that shows a pattern
whose successor occupies exactly the cells with the listed indices. -/
theorem tick_aliveCellsData_of_indices (c : Config) (s : State)
    (hag : Agrees c s.currentGrid s.aliveCellsData) (hp : s.isPaused = false)
    (l : List Nat) (hsorted : l.Sorted (· < ·))
    (hmem : ∀ i, i ∈ l ↔ (i < c.GRID_WIDTH * c.GRID_HEIGHT ∧ cellWillLive c s.currentGrid i = true)) :
    (updateMassive2DGameOfLife c s).aliveCellsData = l.map (cellRecord c s.currentGrid) := by
  rw [tick_aliveCellsData c s hp hag, filter_range_eq _ _ l hsorted hmem]

/-- The live-cell list after an unpaused tick from a state that shows a pattern
whose successor occupies exactly the in-bounds cells `cs`, listed in
increasing index order. -/
theorem tick_records (c : Config) (s : State)
    (hag : Agrees c s.currentGrid s.aliveCellsData) (hp : s.isPaused = false)
    (ax ay : Int) (rel next : Int → Int → Bool)
    (h : ShowsPattern c s.currentGrid ax ay rel)
    (hnext : ∀ i j, relNext rel i j = next i j)
    (cs : List (Nat × Nat))
    (hin : ∀ p ∈ cs, p.1 < c.GRID_WIDTH ∧ p.2 < c.GRID_HEIGHT)
    (hsorted : (cs.map (fun p => p.1 + p.2 * c.GRID_WIDTH)).Sorted (· < ·))
    (hcs : ∀ x < c.GRID_WIDTH, ∀ y < c.GRID_HEIGHT,
      (next ((x : Int) - ax) ((y : Int) - ay) = true ↔ (x, y) ∈ cs)) :
    (updateMassive2DGameOfLife c s).aliveCellsData =
      cs.map (fun p =>
        { x := (p.1 : Int), y := (p.2 : Int),
          neighbors := relCount rel ((p.1 : Int) - ax) ((p.2 : Int) - ay),
          isNewBorn := !rel ((p.1 : Int) - ax) ((p.2 : Int) - ay) }) := by
  rw [tick_aliveCellsData_of_indices c s hag hp _ hsorted, List.map_map]
  · apply List.map_congr_left
    intro p hp2
    exact cellRecord_of_pattern c h (hin p hp2).1 (hin p hp2).2
  · intro i
    rw [List.mem_map]
    constructor
    · rintro ⟨p, hp2, rfl⟩
      obtain ⟨h1, h2⟩ := hin p hp2
      refine ⟨cell_index_lt c h1 h2, ?_⟩
      rw [cellWillLive_of_pattern c h h1 h2, hnext]
      exact (hcs p.1 h1 p.2 h2).mpr hp2
    · rintro ⟨hi, hl⟩
      have hx := index_mod_lt c hi
      have hy := index_div_lt c hi
      have hd := index_decompose c i
      rw [← hd, cellWillLive_of_pattern c h hx hy, hnext] at hl
      exact ⟨(i % c.GRID_WIDTH, i / c.GRID_WIDTH), (hcs _ hx _ hy).mp hl, hd⟩

theorem runTicks_succ (c : Config) (k : Nat) (s : State) :
    runTicks c (k + 1) s = updateMassive2DGameOfLife c (runTicks c k s) := by
  induction k generalizing s with
  | zero => rfl
  | succ k ih =>
    rw [runTicks, ih]
    rfl

/-- A property of consistent unpaused states that one tick preserves holds after
any number of ticks. -/
theorem runTicks_preserves (c : Config) (P : State → Prop)
    (hstep : ∀ s : State, s.Sized c → Agrees c s.currentGrid s.aliveCellsData →
      s.isPaused = false → P s → P (updateMassive2DGameOfLife c s))
    (k : Nat) (s : State) (hs : s.Sized c) (hag : Agrees c s.currentGrid s.aliveCellsData)
    (hp : s.isPaused = false) (h : P s) :
    (runTicks c k s).Sized c ∧
      Agrees c (runTicks c k s).currentGrid (runTicks c k s).aliveCellsData ∧
      (runTicks c k s).isPaused = false ∧ P (runTicks c k s) := by
  induction k generalizing s with
  | zero => exact ⟨hs, hag, hp, h⟩
  | succ k ih =>
    exact ih (updateMassive2DGameOfLife c s) (tick_sized c s hs) (tick_agrees c s hs hp)
      ((tick_isPaused c s).trans hp) (hstep s hs hag hp h)

/-! ## The block, the blinker and the lone cell on the grid -/

theorem blockRel_iff (x y x₀ y₀ : Nat) :
    blockRel ((x : Int) - x₀) ((y : Int) - y₀) = true ↔
      (x = x₀ ∨ x = x₀ + 1) ∧ (y = y₀ ∨ y = y₀ + 1) := by
  simp only [blockRel, decide_eq_true_eq]; omega

theorem block_fits (c : Config) {x₀ y₀ : Nat} (hx₀ : x₀ + 1 < c.GRID_WIDTH)
    (hy₀ : y₀ + 1 < c.GRID_HEIGHT) (x y : Int)
    (h : blockRel (x - x₀) (y - y₀) = true) : isValidCell c x y = true := by
  simp only [blockRel, decide_eq_true_eq] at h
  rw [isValidCell_iff]; omega

/-- A Boolean that is `true` exactly when a proposition holds equals a Boolean
with the same property. -/
theorem bool_eq_of_iff {a b : Bool} {P : Prop} (ha : a = true ↔ P) (hb : b = true ↔ P) :
    a = b :=
  Bool.eq_iff_iff.mpr (ha.trans hb.symm)

theorem relCount_block_values :
    relCount blockRel 0 0 = 3 ∧ relCount blockRel 1 0 = 3 ∧ relCount blockRel 0 1 = 3 ∧
      relCount blockRel 1 1 = 3 := by
  decide

/-- The live-cell list one unpaused tick after a state showing the block. -/
theorem tick_block_records (c : Config) (s : State)
    (hag : Agrees c s.currentGrid s.aliveCellsData) (hp : s.isPaused = false)
    (x₀ y₀ : Nat) (hx₀ : x₀ + 1 < c.GRID_WIDTH) (hy₀ : y₀ + 1 < c.GRID_HEIGHT)
    (h : ShowsPattern c s.currentGrid x₀ y₀ blockRel) :
    (updateMassive2DGameOfLife c s).aliveCellsData =
      [{ x := x₀, y := y₀, neighbors := 3, isNewBorn := false },
       { x := (x₀ : Int) + 1, y := y₀, neighbors := 3, isNewBorn := false },
       { x := x₀, y := (y₀ : Int) + 1, neighbors := 3, isNewBorn := false },
       { x := (x₀ : Int) + 1, y := (y₀ : Int) + 1, neighbors := 3, isNewBorn := false }] := by
  have hm : (y₀ + 1) * c.GRID_WIDTH = y₀ * c.GRID_WIDTH + c.GRID_WIDTH := Nat.succ_mul _ _
  rw [tick_records c s hag hp x₀ y₀ blockRel blockRel h block_next
    [(x₀, y₀), (x₀ + 1, y₀), (x₀, y₀ + 1), (x₀ + 1, y₀ + 1)]]
  · have e1 : ((x₀ + 1 : Nat) : Int) - (x₀ : Int) = 1 := by push_cast; ring
    have e2 : ((y₀ + 1 : Nat) : Int) - (y₀ : Int) = 1 := by push_cast; ring
    simp only [List.map_cons, List.map_nil, sub_self, e1, e2, relCount_block_values]
    simp [blockRel]
  · intro p hp2
    simp only [List.mem_cons, List.mem_singleton, List.not_mem_nil, or_false] at hp2
    rcases hp2 with rfl | rfl | rfl | rfl <;> exact ⟨by simp only; omega, by simp only; omega⟩
  · simp only [List.map_cons, List.map_nil, List.Sorted, List.pairwise_cons, List.mem_cons,
      List.mem_singleton, List.not_mem_nil, forall_eq_or_imp, forall_eq, IsEmpty.forall_iff,
      implies_true, List.Pairwise.nil, and_true]
    omega
  · intro x _ y _
    rw [blockRel_iff]
    simp only [List.mem_cons, List.mem_singleton, List.not_mem_nil, or_false, Prod.mk.injEq]
    omega

theorem blinkerHRel_iff (x y x₀ y₀ : Nat) :
    blinkerHRel ((x : Int) - x₀) ((y : Int) - y₀) = true ↔
      (x + 1 = x₀ ∨ x = x₀ ∨ x = x₀ + 1) ∧ y = y₀ := by
  simp only [blinkerHRel, decide_eq_true_eq]; omega

theorem blinkerVRel_iff (x y x₀ y₀ : Nat) :
    blinkerVRel ((x : Int) - x₀) ((y : Int) - y₀) = true ↔
      x = x₀ ∧ (y + 1 = y₀ ∨ y = y₀ ∨ y = y₀ + 1) := by
  simp only [blinkerVRel, decide_eq_true_eq]; omega

theorem blinkerH_fits (c : Config) {x₀ y₀ : Nat} (hx₀ : 1 ≤ x₀) (hx₁ : x₀ + 1 < c.GRID_WIDTH)
    (hy₁ : y₀ < c.GRID_HEIGHT) (x y : Int)
    (h : blinkerHRel (x - x₀) (y - y₀) = true) : isValidCell c x y = true := by
  simp only [blinkerHRel, decide_eq_true_eq] at h
  rw [isValidCell_iff]; omega

theorem blinkerV_fits (c : Config) {x₀ y₀ : Nat} (hx₁ : x₀ < c.GRID_WIDTH) (hy₀ : 1 ≤ y₀)
    (hy₁ : y₀ + 1 < c.GRID_HEIGHT) (x y : Int)
    (h : blinkerVRel (x - x₀) (y - y₀) = true) : isValidCell c x y = true := by
  simp only [blinkerVRel, decide_eq_true_eq] at h
  rw [isValidCell_iff]; omega

theorem relCount_blinker_values :
    (relCount blinkerHRel 0 (-1) = 3 ∧ relCount blinkerHRel 0 0 = 2 ∧
      relCount blinkerHRel 0 1 = 3) ∧
    (relCount blinkerVRel (-1) 0 = 3 ∧ relCount blinkerVRel 0 0 = 2 ∧
      relCount blinkerVRel 1 0 = 3) := by
  decide

/-- The live-cell list one unpaused tick after a state showing the horizontal
blinker centred at `(x₀, m + 1)`: the vertical triple. -/
theorem tick_blinkerH_records (c : Config) (s : State)
    (hag : Agrees c s.currentGrid s.aliveCellsData) (hp : s.isPaused = false)
    (x₀ m : Nat) (hx₁ : x₀ < c.GRID_WIDTH) (hy₁ : m + 2 < c.GRID_HEIGHT)
    (h : ShowsPattern c s.currentGrid x₀ ((m + 1 : Nat) : Int) blinkerHRel) :
    (updateMassive2DGameOfLife c s).aliveCellsData =
      [{ x := x₀, y := m, neighbors := 3, isNewBorn := true },
       { x := x₀, y := (m : Int) + 1, neighbors := 2, isNewBorn := false },
       { x := x₀, y := (m : Int) + 2, neighbors := 3, isNewBorn := true }] := by
  have hm1 : (m + 1) * c.GRID_WIDTH = m * c.GRID_WIDTH + c.GRID_WIDTH := Nat.succ_mul _ _
  have hm2 : (m + 2) * c.GRID_WIDTH = m * c.GRID_WIDTH + c.GRID_WIDTH + c.GRID_WIDTH := by
    rw [Nat.succ_mul, hm1]
  rw [tick_records c s hag hp x₀ ((m + 1 : Nat) : Int) blinkerHRel blinkerVRel h blinkerH_next
    [(x₀, m), (x₀, m + 1), (x₀, m + 2)]]
  · have e0 : (m : Int) - ((m + 1 : Nat) : Int) = -1 := by push_cast; ring
    have e1 : ((m + 1 : Nat) : Int) - ((m + 1 : Nat) : Int) = 0 := sub_self _
    have e2 : ((m + 2 : Nat) : Int) - ((m + 1 : Nat) : Int) = 1 := by push_cast; ring
    simp only [List.map_cons, List.map_nil, sub_self, e0, e1, e2, relCount_blinker_values]
    simp [blinkerHRel]
  · intro p hp2
    simp only [List.mem_cons, List.mem_singleton, List.not_mem_nil, or_false] at hp2
    rcases hp2 with rfl | rfl | rfl <;> exact ⟨by simp only; omega, by simp only; omega⟩
  · simp only [List.map_cons, List.map_nil, List.Sorted, List.pairwise_cons, List.mem_cons,
      List.mem_singleton, List.not_mem_nil, forall_eq_or_imp, forall_eq, IsEmpty.forall_iff,
      implies_true, List.Pairwise.nil, and_true]
    omega
  · intro x _ y _
    rw [blinkerVRel_iff]
    simp only [List.mem_cons, List.mem_singleton, List.not_mem_nil, or_false, Prod.mk.injEq]
    omega

/-- The live-cell list one unpaused tick after a state showing the vertical
blinker centred at `(k + 1, y₀)`: the horizontal triple. -/
theorem tick_blinkerV_records (c : Config) (s : State)
    (hag : Agrees c s.currentGrid s.aliveCellsData) (hp : s.isPaused = false)
    (k y₀ : Nat) (hx₁ : k + 2 < c.GRID_WIDTH) (hy₁ : y₀ < c.GRID_HEIGHT)
    (h : ShowsPattern c s.currentGrid ((k + 1 : Nat) : Int) y₀ blinkerVRel) :
    (updateMassive2DGameOfLife c s).aliveCellsData =
      [{ x := k, y := y₀, neighbors := 3, isNewBorn := true },
       { x := (k : Int) + 1, y := y₀, neighbors := 2, isNewBorn := false },
       { x := (k : Int) + 2, y := y₀, neighbors := 3, isNewBorn := true }] := by
  rw [tick_records c s hag hp ((k + 1 : Nat) : Int) y₀ blinkerVRel blinkerHRel h blinkerV_next
    [(k, y₀), (k + 1, y₀), (k + 2, y₀)]]
  · have e0 : (k : Int) - ((k + 1 : Nat) : Int) = -1 := by push_cast; ring
    have e1 : ((k + 1 : Nat) : Int) - ((k + 1 : Nat) : Int) = 0 := sub_self _
    have e2 : ((k + 2 : Nat) : Int) - ((k + 1 : Nat) : Int) = 1 := by push_cast; ring
    simp only [List.map_cons, List.map_nil, sub_self, e0, e1, e2, relCount_blinker_values]
    simp [blinkerVRel]
  · intro p hp2
    simp only [List.mem_cons, List.mem_singleton, List.not_mem_nil, or_false] at hp2
    rcases hp2 with rfl | rfl | rfl <;> exact ⟨by simp only; omega, by simp only; omega⟩
  · simp only [List.map_cons, List.map_nil, List.Sorted, List.pairwise_cons, List.mem_cons,
      List.mem_singleton, List.not_mem_nil, forall_eq_or_imp, forall_eq, IsEmpty.forall_iff,
      implies_true, List.Pairwise.nil, and_true]
    omega
  · intro x _ y _
    rw [blinkerHRel_iff]
    simp only [List.mem_cons, List.mem_singleton, List.not_mem_nil, or_false, Prod.mk.injEq]
    omega

theorem loneRel_iff (x y x₀ y₀ : Nat) :
    loneRel ((x : Int) - x₀) ((y : Int) - y₀) = true ↔ x = x₀ ∧ y = y₀ := by
  simp only [loneRel, decide_eq_true_eq]; omega

theorem lone_fits (c : Config) {x₀ y₀ : Nat} (hx₀ : x₀ < c.GRID_WIDTH)
    (hy₀ : y₀ < c.GRID_HEIGHT) (x y : Int)
    (h : loneRel (x - x₀) (y - y₀) = true) : isValidCell c x y = true := by
  simp only [loneRel, decide_eq_true_eq] at h
  rw [isValidCell_iff]; omega

/-- After an unpaused tick `totalCells` is the length of the new live-cell list. -/
theorem tick_totalCells_eq_length (c : Config) (s : State) (hp : s.isPaused = false) :
    (updateMassive2DGameOfLife c s).gameStats.totalCells =
      (updateMassive2DGameOfLife c s).aliveCellsData.length := by
  rw [tick_unpaused c s hp]

/-! ## The live-cell list of a tick in general -/

theorem tick_aliveCellsData_masked (c : Config) (s : State) (hp : s.isPaused = false) :
    (updateMassive2DGameOfLife c s).aliveCellsData =
      ((List.range (c.GRID_WIDTH * c.GRID_HEIGHT)).filter
        (maskedWillLive c s.currentGrid s.aliveCellsData)).map (cellRecord c s.currentGrid) := by
  rw [tick_unpaused c s hp]; exact nextAliveCells_eq_masked c _ _

theorem tick_currentGrid_masked (c : Config) (s : State) (hs : s.Sized c)
    (hp : s.isPaused = false) :
    (updateMassive2DGameOfLife c s).currentGrid =
      (List.range (c.GRID_WIDTH * c.GRID_HEIGHT)).map
        (maskedWillLive c s.currentGrid s.aliveCellsData) := by
  rw [tick_unpaused c s hp]
  show writeGrid c s.nextGrid (nextAliveCells c s.currentGrid s.aliveCellsData) = _
  rw [nextAliveCells_eq_masked]
  exact writeGrid_filter c _ _ _ (cellRecord_coords c _) hs.2

/-- The grid indices of the records of the cells passing a test are the indices
passing the test, in increasing order. -/
theorem map_index_filter (c : Config) (p : Nat → Bool) (f : Nat → CellData)
    (hf : ∀ i, (f i).x = ((i % c.GRID_WIDTH : Nat) : Int) ∧ (f i).y = ((i / c.GRID_WIDTH : Nat) : Int))
    (n : Nat) :
    (((List.range n).filter p).map f).map (fun cell => getGridIndex c cell.x cell.y) =
      ((List.range n).filter p).map (fun i : Nat => (i : Int)) := by
  rw [List.map_map]
  apply List.map_congr_left
  intro i _
  exact getGridIndex_of_coords c f hf i

theorem indexSorted_filter (c : Config) (p : Nat → Bool) (f : Nat → CellData)
    (hf : ∀ i, (f i).x = ((i % c.GRID_WIDTH : Nat) : Int) ∧ (f i).y = ((i / c.GRID_WIDTH : Nat) : Int))
    (n : Nat) : IndexSorted c (((List.range n).filter p).map f) := by
  unfold IndexSorted
  rw [map_index_filter c p f hf]
  have h := (List.sorted_lt_range n).filter p
  exact (List.pairwise_map).mpr (h.imp (fun hab => by exact_mod_cast hab))

/-- A list sorted strictly by grid index has no coordinate twice. -/
theorem nodup_coords_of_indexSorted (c : Config) {alive : List CellData}
    (h : IndexSorted c alive) : (alive.map (fun cell => (cell.x, cell.y))).Nodup := by
  have h1 : (alive.map (fun cell => getGridIndex c cell.x cell.y)).Nodup := h.nodup
  have e : alive.map (fun cell => getGridIndex c cell.x cell.y) =
      (alive.map (fun cell => (cell.x, cell.y))).map (fun p => getGridIndex c p.1 p.2) := by
    rw [List.map_map]; rfl
  rw [e] at h1
  exact List.Nodup.of_map _ h1

theorem init_aliveCellsData (c : Config) (density : ℚ) (r : Nat → ℚ) (s : State) :
    (initializeRandomPattern c density r s).aliveCellsData = seedCells c density r := by
  rw [initializeRandomPattern_eq]

theorem init_totalCells (c : Config) (density : ℚ) (r : Nat → ℚ) (s : State) :
    (initializeRandomPattern c density r s).gameStats.totalCells =
      (seedCells c density r).length := by
  rw [initializeRandomPattern_eq]

/-! ## The size of the active region -/

theorem liveCount_setBit_le (v : List Bool) (i : Int) :
    liveCount (setBit v i) ≤ liveCount v + 1 := by
  unfold liveCount setBit
  by_cases h : i.toNat < v.length
  · rw [List.count_set _ _ _ _ h]
    simp only [beq_self_eq_true, if_true]
    omega
  · rw [List.set_eq_of_length_le (by omega)]
    omega

theorem liveCount_foldl_setBit_le {α : Type} (p : α → Bool) (k : α → Int) (l : List α)
    (v : List Bool) :
    liveCount (l.foldl (fun g a => if p a = true then setBit g (k a) else g) v) ≤
      liveCount v + l.length := by
  induction l generalizing v with
  | nil => simp
  | cons a l ih =>
    simp only [List.foldl_cons, List.length_cons]
    have h1 := ih (if p a = true then setBit v (k a) else v)
    have h2 : liveCount (if p a = true then setBit v (k a) else v) ≤ liveCount v + 1 := by
      split
      · exact liveCount_setBit_le v _
      · omega
    omega

theorem liveCount_markRow_le (c : Config) (cell : CellData) (dy : Int) (v : List Bool) :
    liveCount (markRow c cell dy v) ≤ liveCount v + 3 :=
  liveCount_foldl_setBit_le (fun dx => isValidCell c (cell.x + dx) (cell.y + dy))
    (fun dx => getGridIndex c (cell.x + dx) (cell.y + dy)) [-1, 0, 1] v

theorem liveCount_markCell_le (c : Config) (v : List Bool) (cell : CellData) :
    liveCount (markCell c v cell) ≤ liveCount v + 9 := by
  have e : markCell c v cell = markRow c cell 1 (markRow c cell 0 (markRow c cell (-1) v)) := rfl
  rw [e]
  have h1 := liveCount_markRow_le c cell (-1) v
  have h2 := liveCount_markRow_le c cell 0 (markRow c cell (-1) v)
  have h3 := liveCount_markRow_le c cell 1 (markRow c cell 0 (markRow c cell (-1) v))
  omega

theorem liveCount_foldl_markCell_le (c : Config) (alive : List CellData) (v : List Bool) :
    liveCount (alive.foldl (markCell c) v) ≤ liveCount v + 9 * alive.length := by
  induction alive generalizing v with
  | nil => simp
  | cons a l ih =>
    simp only [List.foldl_cons, List.length_cons]
    have h1 := ih (markCell c v a)
    have h2 := liveCount_markCell_le c v a
    omega

theorem liveCount_replicate_false (n : Nat) : liveCount (List.replicate n false) = 0 := by
  unfold liveCount
  rw [List.count_replicate]
  simp

/-! ## Reading the bitmap of a test -/

theorem bitAt_map_range (c : Config) (p : Nat → Bool) {x y : Nat}
    (hx : x < c.GRID_WIDTH) (hy : y < c.GRID_HEIGHT) :
    bitAt ((List.range (c.GRID_WIDTH * c.GRID_HEIGHT)).map p) (getGridIndex c x y) =
      p (x + y * c.GRID_WIDTH) := by
  rw [getGridIndex_natCast, bitAt_natCast]
  have hlt := cell_index_lt c hx hy
  rw [List.getD_eq_getElem _ _ (by simpa using hlt)]
  simp

/-- A state whose bitmap is the bitmap of a test and whose list holds the
records of the cells passing it is well listed. -/
theorem wellListed_of_filter (c : Config) (s : State) (p : Nat → Bool) (f : Nat → CellData)
    (hf : ∀ i, (f i).x = ((i % c.GRID_WIDTH : Nat) : Int) ∧ (f i).y = ((i / c.GRID_WIDTH : Nat) : Int))
    (hgrid : s.currentGrid = (List.range (c.GRID_WIDTH * c.GRID_HEIGHT)).map p)
    (hlist : s.aliveCellsData =
      ((List.range (c.GRID_WIDTH * c.GRID_HEIGHT)).filter p).map f) :
    WellListed c s := by
  have hsorted : IndexSorted c s.aliveCellsData := by
    rw [hlist]; exact indexSorted_filter c p f hf _
  refine ⟨hsorted, ?_, nodup_coords_of_indexSorted c hsorted, ?_⟩
  · intro cell hc
    rw [hlist, List.mem_map] at hc
    obtain ⟨i, hi, rfl⟩ := hc
    have hlt := List.mem_range.mp (List.mem_filter.mp hi).1
    rw [(hf i).1, (hf i).2, isValidCell_natCast]
    exact ⟨index_mod_lt c hlt, index_div_lt c hlt⟩
  · rw [hgrid, hlist, liveCount_map, List.length_map]

/-! ## Hard edges -/

theorem liveNeighbours_le_validNeighbours (c : Config) (grid : List Bool) (x y : Int) :
    liveNeighbours c grid x y ≤ validNeighbours c x y := by
  unfold liveNeighbours validNeighbours
  apply List.countP_mono_left
  intro o _ h
  simp only [aliveAt, Bool.and_eq_true] at h
  exact h.1

/-- The contribution of one adjacent position to `validNeighbours`: at most one,
and zero when the position is outside the grid. -/
theorem valid_term (c : Config) (x y : Int) :
    ∃ v : Nat, (if isValidCell c x y = true then 1 else 0) = v ∧ v ≤ 1 ∧
      (¬ (0 ≤ x ∧ x < c.GRID_WIDTH ∧ 0 ≤ y ∧ y < c.GRID_HEIGHT) → v = 0) := by
  by_cases h : isValidCell c x y = true
  · exact ⟨1, by rw [if_pos h], le_refl _, fun hn => absurd ((isValidCell_iff c x y).mp h) hn⟩
  · exact ⟨0, by rw [if_neg h], by omega, fun _ => rfl⟩

/-- A corner position has at most 3 adjacent positions inside the grid, any
other edge position at most 5. -/
theorem validNeighbours_edge (c : Config) (x y : Nat) :
    (((x = 0 ∨ x + 1 = c.GRID_WIDTH) ∧ (y = 0 ∨ y + 1 = c.GRID_HEIGHT)) →
      validNeighbours c x y ≤ 3) ∧
    ((x = 0 ∨ x + 1 = c.GRID_WIDTH ∨ y = 0 ∨ y + 1 = c.GRID_HEIGHT) →
      validNeighbours c x y ≤ 5) := by
  obtain ⟨v1, e1, b1, z1⟩ := valid_term c ((x : Int) + -1) ((y : Int) + -1)
  obtain ⟨v2, e2, b2, z2⟩ := valid_term c ((x : Int) + 0) ((y : Int) + -1)
  obtain ⟨v3, e3, b3, z3⟩ := valid_term c ((x : Int) + 1) ((y : Int) + -1)
  obtain ⟨v4, e4, b4, z4⟩ := valid_term c ((x : Int) + -1) ((y : Int) + 0)
  obtain ⟨v5, e5, b5, z5⟩ := valid_term c ((x : Int) + 1) ((y : Int) + 0)
  obtain ⟨v6, e6, b6, z6⟩ := valid_term c ((x : Int) + -1) ((y : Int) + 1)
  obtain ⟨v7, e7, b7, z7⟩ := valid_term c ((x : Int) + 0) ((y : Int) + 1)
  obtain ⟨v8, e8, b8, z8⟩ := valid_term c ((x : Int) + 1) ((y : Int) + 1)
  have hsum : validNeighbours c x y = v8 + v7 + v6 + v5 + v4 + v3 + v2 + v1 := by
    simp only [validNeighbours, neighbourOffsets, List.countP_cons, List.countP_nil, e1, e2, e3,
      e4, e5, e6, e7, e8]
    omega
  rw [hsum]
  constructor
  · intro h; omega
  · intro h; omega

/-- The neighbour count reads only the bits of the in-bounds cells within
distance one. -/
theorem liveNeighbours_local (c : Config) (grid grid2 : List Bool) (x y : Nat)
    (h : ∀ a < c.GRID_WIDTH, ∀ b < c.GRID_HEIGHT,
      (a ≤ x + 1 ∧ x ≤ a + 1 ∧ b ≤ y + 1 ∧ y ≤ b + 1) →
        bitAt grid (getGridIndex c a b) = bitAt grid2 (getGridIndex c a b)) :
    liveNeighbours c grid x y = liveNeighbours c grid2 x y := by
  unfold liveNeighbours
  apply List.countP_congr
  intro o ho
  have hb := neighbourOffsets_bounds o ho
  have e : aliveAt c grid ((x : Int) + o.1) ((y : Int) + o.2) =
      aliveAt c grid2 ((x : Int) + o.1) ((y : Int) + o.2) := by
    cases hv : isValidCell c ((x : Int) + o.1) ((y : Int) + o.2)
    · simp [aliveAt, hv]
    · obtain ⟨a, b, ha, hb2, ha2, hb3⟩ := isValidCell_exists_nat c hv
      simp only [aliveAt, hv, Bool.true_and]
      rw [ha, hb2]
      exact h a ha2 b hb3 (by omega)
  rw [e]

/-! ## The tick rate -/

theorem usubOne_of_pos {n : Nat} (h1 : 1 ≤ n) (h2 : n < 2 ^ 32) : usubOne n = n - 1 := by
  unfold usubOne
  have e : n + (2 ^ 32 - 1) = (n - 1) + 2 ^ 32 := by omega
  rw [e, Nat.add_mod_right, Nat.mod_eq_of_lt (by omega)]

theorem uaddOne_of_lt {n : Nat} (h : n + 1 < 2 ^ 32) : uaddOne n = n + 1 := by
  unfold uaddOne
  exact Nat.mod_eq_of_lt h

/-- One key event keeps the tick rate inside `[1, 60]`. -/
theorem keyCallback_range (key : Key) (action : Action) {ups : Nat} (h1 : 1 ≤ ups)
    (h2 : ups ≤ 60) : 1 ≤ keyCallback key action ups ∧ keyCallback key action ups ≤ 60 := by
  have hs := usubOne_of_pos h1 (by omega : ups < 2 ^ 32)
  have ha := uaddOne_of_lt (by omega : ups + 1 < 2 ^ 32)
  unfold keyCallback
  split
  · exact ⟨h1, h2⟩
  · cases key <;> simp only [hs, ha] <;> omega

theorem keyEvents_range (events : List (Key × Action)) {ups : Nat} (h1 : 1 ≤ ups)
    (h2 : ups ≤ 60) : 1 ≤ keyEvents events ups ∧ keyEvents events ups ≤ 60 := by
  induction events generalizing ups with
  | nil => exact ⟨h1, h2⟩
  | cons e l ih =>
    have h := keyCallback_range e.1 e.2 h1 h2
    exact ih h.1 h.2

/-! ## The render snapshot -/

/-- The render loop copies the first `n` live-cell records, in order. -/
theorem buildRenderData_eq (alive : List CellData) (n : Nat) :
    buildRenderData alive n = (alive.take n).map toInstance := by
  unfold buildRenderData
  induction n with
  | zero => simp
  | succ n ih =>
    rw [List.range_succ, List.foldl_append, ih, List.take_succ]
    simp only [List.foldl_cons, List.foldl_nil]
    cases alive[n]? with
    | none => simp
    | some cell => simp [toInstance]

theorem length_buildRenderData (alive : List CellData) (n : Nat) :
    (buildRenderData alive n).length = min n alive.length := by
  rw [buildRenderData_eq, List.length_map, List.length_take]

/-- Taking `min (length l) n` elements is taking `n` elements. -/
theorem take_min_length {α : Type} (l : List α) (n : Nat) :
    l.take (min l.length n) = l.take n := by
  by_cases h : l.length ≤ n
  · rw [Nat.min_eq_left h, List.take_of_length_le (le_refl _), List.take_of_length_le h]
  · rw [Nat.min_eq_right (by omega)]

/-- The render buffer published by an unpaused tick. -/
theorem tick_renderBuffer (c : Config) (s : State) (hp : s.isPaused = false) :
    (updateMassive2DGameOfLife c s).renderBuffer =
      { instances := ((updateMassive2DGameOfLife c s).aliveCellsData.take MAX_INSTANCES).map
          toInstance
        instanceCount := min (updateMassive2DGameOfLife c s).gameStats.totalCells MAX_INSTANCES
        needsUpdate := true } := by
  rw [tick_unpaused c s hp]
  simp only [buildRenderData_eq, take_min_length]
  congr 1
  rw [List.length_map, List.length_take]
  exact Nat.min_comm _ _

/-! ## Rows of live cells -/

/-- A test that holds on `m` distinct indices below `n` is passed by at least
`m` indices below `n`. -/
theorem length_filter_ge (p : Nat → Bool) (n m : Nat) (f : Nat → Nat)
    (hinj : ∀ a < m, ∀ b < m, f a = f b → a = b)
    (hmem : ∀ a < m, f a < n ∧ p (f a) = true) :
    m ≤ ((List.range n).filter p).length := by
  have hnodup : ((List.range m).map f).Nodup :=
    List.Nodup.map_on
      (fun a ha b hb h => hinj a (List.mem_range.mp ha) b (List.mem_range.mp hb) h)
      (List.nodup_range m)
  have hsub : (List.range m).map f ⊆ (List.range n).filter p := by
    intro i hi
    rw [List.mem_map] at hi
    obtain ⟨a, ha, rfl⟩ := hi
    have := hmem a (List.mem_range.mp ha)
    exact List.mem_filter.mpr ⟨List.mem_range.mpr this.1, this.2⟩
  have h := (List.subperm_of_subset hnodup hsub).length_le
  simpa using h

/-- In a bitmap whose live cells are the cells of the even rows, bounds-checked
liveness is validity together with an even row number. -/
theorem aliveAt_stripes (c : Config) (grid : List Bool)
    (hbits : ∀ a < c.GRID_WIDTH, ∀ b < c.GRID_HEIGHT,
      bitAt grid (getGridIndex c a b) = decide (b % 2 = 0)) (x y : Int) :
    aliveAt c grid x y = (isValidCell c x y && decide (y % 2 = 0)) := by
  cases hv : isValidCell c x y
  · simp [aliveAt, hv]
  · obtain ⟨a, b, rfl, rfl, ha, hb⟩ := isValidCell_exists_nat c hv
    simp only [aliveAt, hv, Bool.true_and, hbits a ha b hb]
    rw [Bool.eq_iff_iff]
    simp only [decide_eq_true_eq]
    omega

/-- In a bitmap whose live cells are the cells of the even rows, every cell of
an even row that is not in the first or last column lives on. -/
theorem stripes_willLive (c : Config) (grid : List Bool)
    (hbits : ∀ a < c.GRID_WIDTH, ∀ b < c.GRID_HEIGHT,
      bitAt grid (getGridIndex c a b) = decide (b % 2 = 0))
    {x y : Nat} (hx0 : 1 ≤ x) (hx1 : x + 1 < c.GRID_WIDTH) (hy : y < c.GRID_HEIGHT)
    (heven : y % 2 = 0) :
    cellWillLive c grid (x + y * c.GRID_WIDTH) = true := by
  have hx : x < c.GRID_WIDTH := by omega
  have hbit : bitAt grid ((x + y * c.GRID_WIDTH : Nat) : Int) = true := by
    rw [← getGridIndex_natCast, hbits x hx y hy]
    simpa using heven
  have h1 : decide (((y : Int) + -1) % 2 = 0) = false := by
    rw [decide_eq_false_iff_not]; omega
  have h2 : decide (((y : Int) + 1) % 2 = 0) = false := by
    rw [decide_eq_false_iff_not]; omega
  have h3 : decide (((y : Int) + 0) % 2 = 0) = true := by
    rw [decide_eq_true_eq]; omega
  have h4 : isValidCell c ((x : Int) + -1) ((y : Int) + 0) = true := by
    rw [isValidCell_iff]; omega
  have h5 : isValidCell c ((x : Int) + 1) ((y : Int) + 0) = true := by
    rw [isValidCell_iff]; omega
  have hn : liveNeighbours c grid x y = 2 := by
    simp only [liveNeighbours, neighbourOffsets, List.countP_cons, List.countP_nil,
      aliveAt_stripes c grid hbits, h1, h2, h3, h4, h5, Bool.and_false, Bool.and_true,
      Bool.false_eq_true, if_false, if_true]
  rw [cellWillLive_eq c grid (cell_index_lt c hx hy), cell_index_mod c y hx,
    cell_index_div c y hx, hbit, hn]
  rfl

theorem stripeIndex_spec (c : Config) {t : Nat}
    (ht : t < (c.GRID_WIDTH - 2) * ((c.GRID_HEIGHT + 1) / 2)) :
    1 ≤ t % (c.GRID_WIDTH - 2) + 1 ∧ t % (c.GRID_WIDTH - 2) + 1 + 1 < c.GRID_WIDTH ∧
      2 * (t / (c.GRID_WIDTH - 2)) < c.GRID_HEIGHT ∧ (2 * (t / (c.GRID_WIDTH - 2))) % 2 = 0 := by
  have hk : 0 < c.GRID_WIDTH - 2 := by
    rcases Nat.eq_zero_or_pos (c.GRID_WIDTH - 2) with h | h
    · rw [h] at ht; simp at ht
    · exact h
  have h1 := Nat.mod_lt t hk
  have h2 : t / (c.GRID_WIDTH - 2) < (c.GRID_HEIGHT + 1) / 2 := Nat.div_lt_of_lt_mul ht
  refine ⟨by omega, by omega, by omega, by omega⟩

theorem stripeIndex_inj (c : Config) {a b : Nat}
    (ha : a < (c.GRID_WIDTH - 2) * ((c.GRID_HEIGHT + 1) / 2))
    (hb : b < (c.GRID_WIDTH - 2) * ((c.GRID_HEIGHT + 1) / 2))
    (h : stripeIndex c a = stripeIndex c b) : a = b := by
  have sa := stripeIndex_spec c ha
  have sb := stripeIndex_spec c hb
  obtain ⟨e1, e2⟩ := cell_index_inj c (by omega) (by omega) h
  have da := Nat.div_add_mod a (c.GRID_WIDTH - 2)
  have db := Nat.div_add_mod b (c.GRID_WIDTH - 2)
  have e3 : a / (c.GRID_WIDTH - 2) = b / (c.GRID_WIDTH - 2) := by omega
  have e4 : a % (c.GRID_WIDTH - 2) = b % (c.GRID_WIDTH - 2) := by omega
  rw [← da, ← db, e3, e4]

/-- From a state whose live cells are the cells of the even rows, at least
`(GRID_WIDTH - 2) * ((GRID_HEIGHT + 1) / 2)` cells are alive after a tick. -/
theorem stripes_survivors (c : Config) (s : State)
    (hag : Agrees c s.currentGrid s.aliveCellsData) (hp : s.isPaused = false)
    (hbits : ∀ a < c.GRID_WIDTH, ∀ b < c.GRID_HEIGHT,
      bitAt s.currentGrid (getGridIndex c a b) = decide (b % 2 = 0)) :
    (c.GRID_WIDTH - 2) * ((c.GRID_HEIGHT + 1) / 2) ≤
      (updateMassive2DGameOfLife c s).gameStats.totalCells := by
  rw [tick_totalCells_eq_length c s hp, tick_aliveCellsData c s hp hag, List.length_map]
  apply length_filter_ge _ _ _ (stripeIndex c)
  · intro a ha b hb h
    exact stripeIndex_inj c ha hb h
  · intro a ha
    obtain ⟨h1, h2, h3, h4⟩ := stripeIndex_spec c ha
    exact ⟨cell_index_lt c (by omega) h3, stripes_willLive c _ hbits h1 h2 h3 h4⟩

/-! ## The dense state of the configured grid -/

theorem stripeState_isPaused : stripeState.isPaused = false := by
  unfold stripeState
  rw [initializeRandomPattern_eq]
  rfl

theorem stripeState_sized : stripeState.Sized Config.source :=
  init_sized _ _ _ _ (initial_sized _)

theorem stripeState_agrees :
    Agrees Config.source stripeState.currentGrid stripeState.aliveCellsData :=
  init_agrees _ _ _ _ (initial_sized _)

theorem stripeState_bits :
    ∀ a < Config.source.GRID_WIDTH, ∀ b < Config.source.GRID_HEIGHT,
      bitAt stripeState.currentGrid (getGridIndex Config.source a b) = decide (b % 2 = 0) := by
  intro a ha b hb
  unfold stripeState
  rw [init_currentGrid _ _ _ _ (initial_sized _), bitAt_map_range Config.source _ ha hb]
  have hdiv : (a + b * Config.source.GRID_WIDTH) / 1920 = b :=
    cell_index_div Config.source b ha
  simp only [seedSelected, stripeDraws, hdiv]
  by_cases h : b % 2 = 0
  · simp [h]
  · simp only [h, if_false, decide_False, decide_eq_false_iff_not, not_lt]
    norm_num

/-- One tick of the dense state leaves more than `MAX_INSTANCES` live cells. -/
theorem stripeState_totalCells :
    MAX_INSTANCES < (updateMassive2DGameOfLife Config.source stripeState).gameStats.totalCells := by
  have h := stripes_survivors Config.source stripeState stripeState_agrees stripeState_isPaused
    stripeState_bits
  have e : (Config.source.GRID_WIDTH - 2) * ((Config.source.GRID_HEIGHT + 1) / 2) = 1035720 := by
    decide
  rw [e] at h
  have m : MAX_INSTANCES = 800000 := rfl
  omega

/-! ## The claims -/

/-- C1: from a state whose bitmap agrees with the live-cell list and that is not
paused, one call of `updateMassive2DGameOfLife` leaves an in-bounds cell `(x, y)`
alive in the current bitmap iff it was alive with 2 or 3 live in-bounds
neighbours, or dead with exactly 3. -/
theorem C1_tick_applies_rule (c : Config) (s : State) (hs : s.Sized c)
    (hag : Agrees c s.currentGrid s.aliveCellsData) (hp : s.isPaused = false)
    (x y : Nat) (hx : x < c.GRID_WIDTH) (hy : y < c.GRID_HEIGHT) :
    bitAt (updateMassive2DGameOfLife c s).currentGrid (getGridIndex c x y) = true ↔
      (bitAt s.currentGrid (getGridIndex c x y) = true ∧
          (liveNeighbours c s.currentGrid x y = 2 ∨ liveNeighbours c s.currentGrid x y = 3)) ∨
        (bitAt s.currentGrid (getGridIndex c x y) = false ∧
          liveNeighbours c s.currentGrid x y = 3) := by
  rw [tick_currentGrid c s hs hp hag, bitAt_bruteForceStep c _ hx hy]
  cases bitAt s.currentGrid (getGridIndex c x y) <;> simp [lifeRule]

/-- C2: from a state whose bitmap agrees with the live-cell list, `k` unpaused
ticks give the same current bitmap as `k` generations of the brute-force
evaluator, and `totalCells` is the number of live cells of that bitmap (for
`k = 0` the statistic is the starting one, assumed to count the starting bitmap). -/
theorem C2_ticks_refine_bruteForce (c : Config) (k : Nat) (s : State) (hs : s.Sized c)
    (hag : Agrees c s.currentGrid s.aliveCellsData) (hp : s.isPaused = false)
    (h0 : k = 0 → s.gameStats.totalCells = liveCount s.currentGrid) :
    (runTicks c k s).currentGrid = bruteForce c k s.currentGrid ∧
      (runTicks c k s).gameStats.totalCells = liveCount (bruteForce c k s.currentGrid) := by
  induction k generalizing s with
  | zero => exact ⟨rfl, h0 rfl⟩
  | succ k ih =>
    have h := ih (updateMassive2DGameOfLife c s) (tick_sized c s hs) (tick_agrees c s hs hp)
      ((tick_isPaused c s).trans hp) (fun _ => tick_totalCells c s hs hp hag)
    rw [tick_currentGrid c s hs hp hag] at h
    exact h

/-- Witness of C1: the blinker on the small grid, read at the cell `(2, 1)`
above its centre. -/
theorem C1_tick_applies_rule_witness :
    blinkerState.Sized smallConfig ∧
    Agrees smallConfig blinkerState.currentGrid blinkerState.aliveCellsData ∧
    blinkerState.isPaused = false ∧
    (bitAt (updateMassive2DGameOfLife smallConfig blinkerState).currentGrid
        (getGridIndex smallConfig (2 : Nat) (1 : Nat)) = true ↔
      (bitAt blinkerState.currentGrid (getGridIndex smallConfig (2 : Nat) (1 : Nat)) = true ∧
          (liveNeighbours smallConfig blinkerState.currentGrid (2 : Nat) (1 : Nat) = 2 ∨
            liveNeighbours smallConfig blinkerState.currentGrid (2 : Nat) (1 : Nat) = 3)) ∨
        (bitAt blinkerState.currentGrid (getGridIndex smallConfig (2 : Nat) (1 : Nat)) = false ∧
          liveNeighbours smallConfig blinkerState.currentGrid (2 : Nat) (1 : Nat) = 3)) :=
  ⟨by decide, by decide, rfl,
    C1_tick_applies_rule smallConfig blinkerState (by decide) (by decide) rfl 2 1
      (by decide) (by decide)⟩

/-- Witness of C2: three ticks of the blinker on the small grid. -/
theorem C2_ticks_refine_bruteForce_witness :
    blinkerState.Sized smallConfig ∧
    Agrees smallConfig blinkerState.currentGrid blinkerState.aliveCellsData ∧
    blinkerState.isPaused = false ∧
    (runTicks smallConfig 3 blinkerState).currentGrid =
      bruteForce smallConfig 3 blinkerState.currentGrid ∧
    (runTicks smallConfig 3 blinkerState).gameStats.totalCells =
      liveCount (bruteForce smallConfig 3 blinkerState.currentGrid) :=
  ⟨by decide, by decide, rfl,
    C2_ticks_refine_bruteForce smallConfig 3 blinkerState (by decide) (by decide) rfl
      (fun h => absurd h (by decide))⟩

/-- C3: bitmap/list agreement holds after `initializeRandomPattern`, for any
density and any stream of draws, and after every unpaused tick (the tick
re-establishes it whatever the list was before). -/
theorem C3_agreement_invariant (c : Config) (s : State) (hs : s.Sized c) :
    (∀ (density : ℚ) (r : Nat → ℚ),
      Agrees c (initializeRandomPattern c density r s).currentGrid
        (initializeRandomPattern c density r s).aliveCellsData) ∧
    (s.isPaused = false →
      Agrees c (updateMassive2DGameOfLife c s).currentGrid
        (updateMassive2DGameOfLife c s).aliveCellsData) :=
  ⟨fun density r => init_agrees c density r s hs, fun hp => tick_agrees c s hs hp⟩

/-- Witness of C3: seeding and ticking the blinker state of the small grid. -/
theorem C3_agreement_invariant_witness :
    blinkerState.Sized smallConfig ∧
    Agrees smallConfig
      (initializeRandomPattern smallConfig (1 / 4) sampleDraws blinkerState).currentGrid
      (initializeRandomPattern smallConfig (1 / 4) sampleDraws blinkerState).aliveCellsData ∧
    Agrees smallConfig (updateMassive2DGameOfLife smallConfig blinkerState).currentGrid
      (updateMassive2DGameOfLife smallConfig blinkerState).aliveCellsData :=
  ⟨by decide,
    (C3_agreement_invariant smallConfig blinkerState (by decide)).1 (1 / 4) sampleDraws,
    (C3_agreement_invariant smallConfig blinkerState (by decide)).2 rfl⟩

/-- C4: when `GRID_SIZE * CHUNK_SIZE` covers both grid dimensions (as for the
configured 1920 x 1080 grid with 32 buckets of 60), then after
`initializeRandomPattern` and after every unpaused tick each bucket
`spatialGrid[gy][gx]` is exactly the list of grid indices of the live-cell
records of chunk `(gx, gy)` in list order, no record is dropped by the range
guard, and the flattened buckets hold the same indices as the live-cell list. -/
theorem C4_buckets_exact (c : Config)
    (hw : c.GRID_WIDTH ≤ c.GRID_SIZE * c.CHUNK_SIZE)
    (hh : c.GRID_HEIGHT ≤ c.GRID_SIZE * c.CHUNK_SIZE)
    (s : State) (hsg : Shaped c s.spatialGrid) :
    (∀ (density : ℚ) (r : Nat → ℚ), BucketsExact c (initializeRandomPattern c density r s)) ∧
    (s.isPaused = false → BucketsExact c (updateMassive2DGameOfLife c s)) := by
  constructor
  · intro density r
    apply bucketsExact_of_rebuild c hw hh _ s.spatialGrid hsg
    · rw [initializeRandomPattern_eq]
    · rw [initializeRandomPattern_eq]; exact seedCells_inBounds c density r
  · intro hp
    apply bucketsExact_of_rebuild c hw hh _ s.spatialGrid hsg
    · rw [tick_unpaused c s hp]
    · rw [tick_unpaused c s hp]; exact nextAliveCells_inBounds c _ _

/-- Witness of C4: the configured grid, from the initial state of the globals. -/
theorem C4_buckets_exact_witness :
    Config.source.GRID_WIDTH ≤ Config.source.GRID_SIZE * Config.source.CHUNK_SIZE ∧
    Config.source.GRID_HEIGHT ≤ Config.source.GRID_SIZE * Config.source.CHUNK_SIZE ∧
    Shaped Config.source (State.initial Config.source).spatialGrid ∧
    (∀ (density : ℚ) (r : Nat → ℚ),
      BucketsExact Config.source
        (initializeRandomPattern Config.source density r (State.initial Config.source))) ∧
    ((State.initial Config.source).isPaused = false →
      BucketsExact Config.source
        (updateMassive2DGameOfLife Config.source (State.initial Config.source))) :=
  ⟨by decide, by decide, initial_shaped _,
    C4_buckets_exact Config.source (by decide) (by decide) (State.initial Config.source)
      (initial_shaped _)⟩

/-- C5: when `isPaused` is true, `updateMassive2DGameOfLife` changes nothing, for
any number of repeated calls: the whole state (generation counter, `totalCells`,
both bitmaps, live-cell list, buckets, render buffer) stays the same. -/
theorem C5_paused_noop (c : Config) (s : State) (hp : s.isPaused = true) (k : Nat) :
    runTicks c k s = s := by
  induction k with
  | zero => rfl
  | succ k ih =>
    have h1 : updateMassive2DGameOfLife c s = s := by simp [updateMassive2DGameOfLife, hp]
    rw [runTicks, h1, ih]

/-- Witness of C5: seven calls on the paused blinker state. -/
theorem C5_paused_noop_witness :
    pausedState.isPaused = true ∧ runTicks smallConfig 7 pausedState = pausedState :=
  ⟨rfl, C5_paused_noop smallConfig pausedState rfl 7⟩

/-- C6: for draws in `[0, 1)`, seeding with density 0 yields an empty live-cell
list, `totalCells = 0` and `generation = 0`; seeding with density 1 yields
`totalCells = GRID_WIDTH * GRID_HEIGHT`, every bitmap cell alive and
`generation = 0`. -/
theorem C6_density_extremes (c : Config) (r : Nat → ℚ) (hr : ∀ n, 0 ≤ r n ∧ r n < 1)
    (s : State) (hs : s.Sized c) :
    ((initializeRandomPattern c 0 r s).aliveCellsData = [] ∧
      (initializeRandomPattern c 0 r s).gameStats.totalCells = 0 ∧
      (initializeRandomPattern c 0 r s).gameStats.generation = 0) ∧
    ((initializeRandomPattern c 1 r s).gameStats.totalCells = c.GRID_WIDTH * c.GRID_HEIGHT ∧
      (initializeRandomPattern c 1 r s).currentGrid =
        List.replicate (c.GRID_WIDTH * c.GRID_HEIGHT) true ∧
      (initializeRandomPattern c 1 r s).gameStats.generation = 0) := by
  have h0 : seedCells c 0 r = [] := by
    unfold seedCells
    rw [List.map_eq_nil_iff, List.filter_eq_nil_iff]
    intro i _
    simp only [seedSelected, decide_eq_true_eq, not_lt]
    exact (hr i).1
  have h1 : (List.range (c.GRID_WIDTH * c.GRID_HEIGHT)).filter (seedSelected 1 r) =
      List.range (c.GRID_WIDTH * c.GRID_HEIGHT) := by
    rw [List.filter_eq_self]
    intro i _
    simp only [seedSelected, decide_eq_true_eq]
    exact (hr i).2
  refine ⟨⟨?_, ?_, ?_⟩, ?_, ?_, ?_⟩
  · rw [initializeRandomPattern_eq]; exact h0
  · rw [initializeRandomPattern_eq]; simp [h0]
  · rw [initializeRandomPattern_eq]
  · rw [initializeRandomPattern_eq]; simp [seedCells, h1]
  · rw [init_currentGrid c 1 r s hs]
    apply List.ext_getElem
    · simp
    · intro i hi _
      have hi2 : i < c.GRID_WIDTH * c.GRID_HEIGHT := by simpa using hi
      simp only [List.getElem_map, List.getElem_range, List.getElem_replicate, seedSelected,
        decide_eq_true_eq]
      exact (hr i).2
  · rw [initializeRandomPattern_eq]

/-- Witness of C6: the configured 1920 x 1080 grid, seeded from the initial
state of the globals with the alternating draws. -/
theorem C6_density_extremes_witness :
    (∀ n, 0 ≤ sampleDraws n ∧ sampleDraws n < 1) ∧
    (State.initial Config.source).Sized Config.source ∧
    (initializeRandomPattern Config.source 0 sampleDraws
      (State.initial Config.source)).gameStats.totalCells = 0 ∧
    (initializeRandomPattern Config.source 1 sampleDraws
      (State.initial Config.source)).gameStats.totalCells = 1920 * 1080 :=
  have hr : ∀ n, 0 ≤ sampleDraws n ∧ sampleDraws n < 1 := by
    intro n
    unfold sampleDraws
    split <;> norm_num
  ⟨hr, initial_sized _,
    (C6_density_extremes Config.source sampleDraws hr (State.initial Config.source)
      (initial_sized _)).1.2.1,
    (C6_density_extremes Config.source sampleDraws hr (State.initial Config.source)
      (initial_sized _)).2.1⟩

/-- C7: `initializeRandomPattern` discards the prior grid state: the live-cell
list is exactly the list of cells `(x, y)` whose draw number `x + y * GRID_WIDTH`
is below the density, in row-major order, each with `neighbors = 0` and
`isNewBorn = true`; `nextGrid` is all false; `generation` is 0 and `totalCells`
the list length; and both bitmaps, the list, the buckets and the statistics are
the same from any two prior states. -/
theorem C7_seed_depends_on_draws (c : Config) (p : ℚ) (r : Nat → ℚ) (s₁ s₂ : State)
    (hs₁ : s₁.Sized c) (hs₂ : s₂.Sized c)
    (hg₁ : Shaped c s₁.spatialGrid) (hg₂ : Shaped c s₂.spatialGrid) :
    (initializeRandomPattern c p r s₁).aliveCellsData = seedSpec c p r ∧
    (initializeRandomPattern c p r s₁).nextGrid =
      List.replicate (c.GRID_WIDTH * c.GRID_HEIGHT) false ∧
    (initializeRandomPattern c p r s₁).gameStats.generation = 0 ∧
    (initializeRandomPattern c p r s₁).gameStats.totalCells = (seedSpec c p r).length ∧
    (initializeRandomPattern c p r s₁).currentGrid =
      (initializeRandomPattern c p r s₂).currentGrid ∧
    (initializeRandomPattern c p r s₁).nextGrid = (initializeRandomPattern c p r s₂).nextGrid ∧
    (initializeRandomPattern c p r s₁).aliveCellsData =
      (initializeRandomPattern c p r s₂).aliveCellsData ∧
    (initializeRandomPattern c p r s₁).spatialGrid =
      (initializeRandomPattern c p r s₂).spatialGrid ∧
    (initializeRandomPattern c p r s₁).gameStats = (initializeRandomPattern c p r s₂).gameStats := by
  have hn₁ := fillFalse_of_length s₁.nextGrid _ hs₁.2
  have hn₂ := fillFalse_of_length s₂.nextGrid _ hs₂.2
  refine ⟨?_, ?_, ?_, ?_, ?_, ?_, ?_, ?_, ?_⟩
  · rw [initializeRandomPattern_eq]; exact seedCells_eq_seedSpec c p r
  · rw [initializeRandomPattern_eq]; exact hn₁
  · rw [initializeRandomPattern_eq]
  · rw [initializeRandomPattern_eq, ← seedCells_eq_seedSpec]
  · rw [init_currentGrid c p r s₁ hs₁, init_currentGrid c p r s₂ hs₂]
  · rw [initializeRandomPattern_eq, initializeRandomPattern_eq]
    exact hn₁.trans hn₂.symm
  · rw [initializeRandomPattern_eq, initializeRandomPattern_eq]
  · rw [initializeRandomPattern_eq, initializeRandomPattern_eq]
    show rebuildSpatialGrid c s₁.spatialGrid _ = rebuildSpatialGrid c s₂.spatialGrid _
    unfold rebuildSpatialGrid
    rw [clearSpatialGrid_of_shaped c hg₁, clearSpatialGrid_of_shaped c hg₂]
  · rw [initializeRandomPattern_eq, initializeRandomPattern_eq]

/-- Witness of C7: seeding the small grid from the blinker state and from the
block state with the alternating draws. -/
theorem C7_seed_depends_on_draws_witness :
    blinkerState.Sized smallConfig ∧ blockState.Sized smallConfig ∧
    Shaped smallConfig blinkerState.spatialGrid ∧ Shaped smallConfig blockState.spatialGrid ∧
    (initializeRandomPattern smallConfig (1 / 4) sampleDraws blinkerState).aliveCellsData =
      seedSpec smallConfig (1 / 4) sampleDraws ∧
    (initializeRandomPattern smallConfig (1 / 4) sampleDraws blinkerState).currentGrid =
      (initializeRandomPattern smallConfig (1 / 4) sampleDraws blockState).currentGrid :=
  ⟨by decide, by decide, by decide, by decide,
    (C7_seed_depends_on_draws smallConfig (1 / 4) sampleDraws blinkerState blockState
      (by decide) (by decide) (by decide) (by decide)).1,
    (C7_seed_depends_on_draws smallConfig (1 / 4) sampleDraws blinkerState blockState
      (by decide) (by decide) (by decide) (by decide)).2.2.2.2.1⟩

/-- C8: a 2 x 2 block placed anywhere inside the grid (edges and corners
included), alone in a consistent unpaused state, is still there after any
number `n` of ticks: the bitmap and the live-cell list hold exactly its four
cells, and for `n ≥ 1` the list consists of the four records of the block, in
index order, each with `neighbors = 3` and `isNewBorn = false`. -/
theorem C8_block_still_life (c : Config) (s : State) (hs : s.Sized c)
    (hag : Agrees c s.currentGrid s.aliveCellsData) (hp : s.isPaused = false)
    (x₀ y₀ : Nat) (hx₀ : x₀ + 1 < c.GRID_WIDTH) (hy₀ : y₀ + 1 < c.GRID_HEIGHT)
    (hblock : ∀ x < c.GRID_WIDTH, ∀ y < c.GRID_HEIGHT,
      (bitAt s.currentGrid (getGridIndex c x y) = true ↔
        (x = x₀ ∨ x = x₀ + 1) ∧ (y = y₀ ∨ y = y₀ + 1)))
    (n : Nat) :
    (∀ x < c.GRID_WIDTH, ∀ y < c.GRID_HEIGHT,
      (bitAt (runTicks c n s).currentGrid (getGridIndex c x y) = true ↔
        (x = x₀ ∨ x = x₀ + 1) ∧ (y = y₀ ∨ y = y₀ + 1))) ∧
    (∀ x < c.GRID_WIDTH, ∀ y < c.GRID_HEIGHT,
      ((∃ cell ∈ (runTicks c n s).aliveCellsData, cell.x = x ∧ cell.y = y) ↔
        (x = x₀ ∨ x = x₀ + 1) ∧ (y = y₀ ∨ y = y₀ + 1))) ∧
    (0 < n → (runTicks c n s).aliveCellsData =
      [{ x := x₀, y := y₀, neighbors := 3, isNewBorn := false },
       { x := (x₀ : Int) + 1, y := y₀, neighbors := 3, isNewBorn := false },
       { x := x₀, y := (y₀ : Int) + 1, neighbors := 3, isNewBorn := false },
       { x := (x₀ : Int) + 1, y := (y₀ : Int) + 1, neighbors := 3, isNewBorn := false }]) := by
  have hpat : ShowsPattern c s.currentGrid x₀ y₀ blockRel :=
    showsPattern_of_bits c _ _ _ _
      (fun x hx y hy => bool_eq_of_iff (hblock x hx y hy) (blockRel_iff x y x₀ y₀))
      (block_fits c hx₀ hy₀)
  have hinv := fun k => runTicks_preserves c (fun t => ShowsPattern c t.currentGrid x₀ y₀ blockRel)
    (fun t ht hagt hpt h =>
      tick_showsPattern c t ht hagt hpt _ _ _ _ h block_next (block_fits c hx₀ hy₀))
    k s hs hag hp hpat
  have hbits : ∀ x < c.GRID_WIDTH, ∀ y < c.GRID_HEIGHT,
      (bitAt (runTicks c n s).currentGrid (getGridIndex c x y) = true ↔
        (x = x₀ ∨ x = x₀ + 1) ∧ (y = y₀ ∨ y = y₀ + 1)) := by
    intro x hx y hy
    rw [bits_of_showsPattern c (hinv n).2.2.2 hx hy]
    exact blockRel_iff x y x₀ y₀
  refine ⟨hbits, ?_, ?_⟩
  · intro x hx y hy
    rw [← (hinv n).2.1 x hx y hy]
    exact hbits x hx y hy
  · intro hn
    obtain ⟨k, rfl⟩ : ∃ k, n = k + 1 := ⟨n - 1, by omega⟩
    rw [runTicks_succ]
    exact tick_block_records c _ (hinv k).2.1 (hinv k).2.2.1 x₀ y₀ hx₀ hy₀ (hinv k).2.2.2

/-- Witness of C8: the block in the lower right corner of the small grid,
after four ticks. -/
theorem C8_block_still_life_witness :
    blockState.Sized smallConfig ∧
    Agrees smallConfig blockState.currentGrid blockState.aliveCellsData ∧
    blockState.isPaused = false ∧
    (∀ x < smallConfig.GRID_WIDTH, ∀ y < smallConfig.GRID_HEIGHT,
      (bitAt blockState.currentGrid (getGridIndex smallConfig x y) = true ↔
        (x = 4 ∨ x = 4 + 1) ∧ (y = 3 ∨ y = 3 + 1))) ∧
    (runTicks smallConfig 4 blockState).aliveCellsData =
      [{ x := 4, y := 3, neighbors := 3, isNewBorn := false },
       { x := 5, y := 3, neighbors := 3, isNewBorn := false },
       { x := 4, y := 4, neighbors := 3, isNewBorn := false },
       { x := 5, y := 4, neighbors := 3, isNewBorn := false }] :=
  ⟨by decide, by decide, rfl, by decide,
    (C8_block_still_life smallConfig blockState (by decide) (by decide) rfl 4 3
      (by decide) (by decide) (by decide) 4).2.2 (by decide)⟩

/-- C9: a horizontal blinker centred at `(x₀, y₀)` with `1 ≤ x₀ ≤ GRID_WIDTH - 2`
and `1 ≤ y₀ ≤ GRID_HEIGHT - 2`, alone in a consistent unpaused state, is the
vertical triple `(x₀, y₀ - 1), (x₀, y₀), (x₀, y₀ + 1)` after one tick and the
original horizontal triple after two ticks, in the bitmap and in the live-cell
list. -/
theorem C9_blinker_period_two (c : Config) (s : State) (hs : s.Sized c)
    (hag : Agrees c s.currentGrid s.aliveCellsData) (hp : s.isPaused = false)
    (x₀ y₀ : Nat) (hx₀ : 1 ≤ x₀) (hx₁ : x₀ + 1 < c.GRID_WIDTH)
    (hy₀ : 1 ≤ y₀) (hy₁ : y₀ + 1 < c.GRID_HEIGHT)
    (hblinker : ∀ x < c.GRID_WIDTH, ∀ y < c.GRID_HEIGHT,
      (bitAt s.currentGrid (getGridIndex c x y) = true ↔
        (x + 1 = x₀ ∨ x = x₀ ∨ x = x₀ + 1) ∧ y = y₀)) :
    ((∀ x < c.GRID_WIDTH, ∀ y < c.GRID_HEIGHT,
        (bitAt (runTicks c 1 s).currentGrid (getGridIndex c x y) = true ↔
          x = x₀ ∧ (y + 1 = y₀ ∨ y = y₀ ∨ y = y₀ + 1))) ∧
      (runTicks c 1 s).aliveCellsData =
        [{ x := x₀, y := (y₀ : Int) - 1, neighbors := 3, isNewBorn := true },
         { x := x₀, y := y₀, neighbors := 2, isNewBorn := false },
         { x := x₀, y := (y₀ : Int) + 1, neighbors := 3, isNewBorn := true }]) ∧
    ((∀ x < c.GRID_WIDTH, ∀ y < c.GRID_HEIGHT,
        (bitAt (runTicks c 2 s).currentGrid (getGridIndex c x y) = true ↔
          (x + 1 = x₀ ∨ x = x₀ ∨ x = x₀ + 1) ∧ y = y₀)) ∧
      (runTicks c 2 s).aliveCellsData =
        [{ x := (x₀ : Int) - 1, y := y₀, neighbors := 3, isNewBorn := true },
         { x := x₀, y := y₀, neighbors := 2, isNewBorn := false },
         { x := (x₀ : Int) + 1, y := y₀, neighbors := 3, isNewBorn := true }]) := by
  obtain ⟨k, rfl⟩ : ∃ k, x₀ = k + 1 := ⟨x₀ - 1, by omega⟩
  obtain ⟨m, rfl⟩ : ∃ m, y₀ = m + 1 := ⟨y₀ - 1, by omega⟩
  have hpat : ShowsPattern c s.currentGrid ((k + 1 : Nat) : Int) ((m + 1 : Nat) : Int)
      blinkerHRel :=
    showsPattern_of_bits c _ _ _ _
      (fun x hx y hy => bool_eq_of_iff (hblinker x hx y hy) (blinkerHRel_iff x y _ _))
      (blinkerH_fits c hx₀ hx₁ (by omega))
  have hs1 := tick_sized c s hs
  have hag1 := tick_agrees c s hs hp
  have hp1 := (tick_isPaused c s).trans hp
  have hpat1 := tick_showsPattern c s hs hag hp _ _ _ _ hpat blinkerH_next
    (blinkerV_fits c (by omega) hy₀ hy₁)
  have hpat2 := tick_showsPattern c _ hs1 hag1 hp1 _ _ _ _ hpat1 blinkerV_next
    (blinkerH_fits c hx₀ hx₁ (by omega))
  have e1 : runTicks c 1 s = updateMassive2DGameOfLife c s := rfl
  have e2 : runTicks c 2 s = updateMassive2DGameOfLife c (updateMassive2DGameOfLife c s) := rfl
  rw [e1, e2]
  refine ⟨⟨?_, ?_⟩, ?_, ?_⟩
  · intro x hx y hy
    rw [bits_of_showsPattern c hpat1 hx hy]; exact blinkerVRel_iff x y _ _
  · rw [tick_blinkerH_records c s hag hp (k + 1) m (by omega) (by omega) hpat]
    push_cast
    simp
    ring
  · intro x hx y hy
    rw [bits_of_showsPattern c hpat2 hx hy]; exact blinkerHRel_iff x y _ _
  · rw [tick_blinkerV_records c _ hag1 hp1 k (m + 1) (by omega) (by omega) hpat1]
    push_cast
    simp
    ring

/-- Witness of C9: the blinker centred at `(2, 2)` on the small grid. -/
theorem C9_blinker_period_two_witness :
    blinkerState.Sized smallConfig ∧
    Agrees smallConfig blinkerState.currentGrid blinkerState.aliveCellsData ∧
    blinkerState.isPaused = false ∧
    (∀ x < smallConfig.GRID_WIDTH, ∀ y < smallConfig.GRID_HEIGHT,
      (bitAt blinkerState.currentGrid (getGridIndex smallConfig x y) = true ↔
        (x + 1 = 2 ∨ x = 2 ∨ x = 2 + 1) ∧ y = 2)) ∧
    (runTicks smallConfig 1 blinkerState).aliveCellsData =
      [{ x := 2, y := 1, neighbors := 3, isNewBorn := true },
       { x := 2, y := 2, neighbors := 2, isNewBorn := false },
       { x := 2, y := 3, neighbors := 3, isNewBorn := true }] ∧
    (runTicks smallConfig 2 blinkerState).aliveCellsData =
      [{ x := 1, y := 2, neighbors := 3, isNewBorn := true },
       { x := 2, y := 2, neighbors := 2, isNewBorn := false },
       { x := 3, y := 2, neighbors := 3, isNewBorn := true }] :=
  ⟨by decide, by decide, rfl, by decide,
    (C9_blinker_period_two smallConfig blinkerState (by decide) (by decide) rfl 2 2
      (by decide) (by decide) (by decide) (by decide) (by decide)).1.2,
    (C9_blinker_period_two smallConfig blinkerState (by decide) (by decide) rfl 2 2
      (by decide) (by decide) (by decide) (by decide) (by decide)).2.2⟩

/-- C10: from a state whose bitmap agrees with the live-cell list, a live cell
with 0, 1 or at least 4 live in-bounds neighbours is dead after one unpaused
tick (its bit is false and the list holds no record of it); and a grid whose
only live cell is a single cell has an empty live-cell list and `totalCells = 0`
after one tick. -/
theorem C10_lonely_or_crowded_dies (c : Config) (s : State) (hs : s.Sized c)
    (hag : Agrees c s.currentGrid s.aliveCellsData) (hp : s.isPaused = false) :
    (∀ x < c.GRID_WIDTH, ∀ y < c.GRID_HEIGHT,
      bitAt s.currentGrid (getGridIndex c x y) = true →
      (liveNeighbours c s.currentGrid x y ≤ 1 ∨ 4 ≤ liveNeighbours c s.currentGrid x y) →
      (bitAt (updateMassive2DGameOfLife c s).currentGrid (getGridIndex c x y) = false ∧
        ¬ ∃ cell ∈ (updateMassive2DGameOfLife c s).aliveCellsData, cell.x = x ∧ cell.y = y)) ∧
    (∀ x₀ < c.GRID_WIDTH, ∀ y₀ < c.GRID_HEIGHT,
      (∀ x < c.GRID_WIDTH, ∀ y < c.GRID_HEIGHT,
        (bitAt s.currentGrid (getGridIndex c x y) = true ↔ x = x₀ ∧ y = y₀)) →
      ((updateMassive2DGameOfLife c s).aliveCellsData = [] ∧
        (updateMassive2DGameOfLife c s).gameStats.totalCells = 0)) := by
  constructor
  · intro x hx y hy halive hn
    have hdead : bitAt (updateMassive2DGameOfLife c s).currentGrid (getGridIndex c x y) = false := by
      rw [tick_currentGrid c s hs hp hag, bitAt_bruteForceStep c _ hx hy, halive]
      rcases hn with h | h
      · have h2 : liveNeighbours c s.currentGrid x y ≠ 2 := by omega
        have h3 : liveNeighbours c s.currentGrid x y ≠ 3 := by omega
        simp [lifeRule, h2, h3]
      · have h2 : liveNeighbours c s.currentGrid x y ≠ 2 := by omega
        have h3 : liveNeighbours c s.currentGrid x y ≠ 3 := by omega
        simp [lifeRule, h2, h3]
    refine ⟨hdead, ?_⟩
    intro hex
    have := (tick_agrees c s hs hp x hx y hy).mpr hex
    rw [hdead] at this
    exact Bool.false_ne_true this
  · intro x₀ hx₀ y₀ hy₀ hlone
    have hpat : ShowsPattern c s.currentGrid x₀ y₀ loneRel :=
      showsPattern_of_bits c _ _ _ _
        (fun x hx y hy => bool_eq_of_iff (hlone x hx y hy) (loneRel_iff x y x₀ y₀))
        (lone_fits c hx₀ hy₀)
    have hnil : (updateMassive2DGameOfLife c s).aliveCellsData = [] := by
      rw [tick_records c s hag hp x₀ y₀ loneRel emptyRel hpat lone_next []]
      · rfl
      · intro p hp2; exact absurd hp2 (List.not_mem_nil _)
      · exact List.sorted_nil
      · intro x _ y _; simp [emptyRel]
    refine ⟨hnil, ?_⟩
    rw [tick_totalCells_eq_length c s hp, hnil]
    rfl

/-- Witness of C10: the lone cell at `(0, 0)` of the small grid, which has no
live neighbour. -/
theorem C10_lonely_or_crowded_dies_witness :
    loneCellState.Sized smallConfig ∧
    Agrees smallConfig loneCellState.currentGrid loneCellState.aliveCellsData ∧
    loneCellState.isPaused = false ∧
    bitAt loneCellState.currentGrid (getGridIndex smallConfig (0 : Nat) (0 : Nat)) = true ∧
    liveNeighbours smallConfig loneCellState.currentGrid (0 : Nat) (0 : Nat) ≤ 1 ∧
    bitAt (updateMassive2DGameOfLife smallConfig loneCellState).currentGrid
      (getGridIndex smallConfig (0 : Nat) (0 : Nat)) = false ∧
    (updateMassive2DGameOfLife smallConfig loneCellState).gameStats.totalCells = 0 :=
  ⟨by decide, by decide, rfl, by decide, by decide,
    ((C10_lonely_or_crowded_dies smallConfig loneCellState (by decide) (by decide) rfl).1 0
      (by decide) 0 (by decide) (by decide) (Or.inl (by decide))).1,
    ((C10_lonely_or_crowded_dies smallConfig loneCellState (by decide) (by decide) rfl).2 0
      (by decide) 0 (by decide) (by decide)).2⟩

/-- C12: an unpaused tick sets the generation counter to its successor modulo
the range of `size_t`, hence increments it by exactly one whenever the counter
is below its maximum; and it sets `totalCells` to the length of the new
live-cell list, which is the number of live cells of the new current bitmap. -/
theorem C12_tick_counters (c : Config) (s : State) (hs : s.Sized c) (hp : s.isPaused = false)
    (hgen : s.gameStats.generation + 1 < 2 ^ c.sizeBits) :
    (updateMassive2DGameOfLife c s).gameStats.generation =
        (s.gameStats.generation + 1) % 2 ^ c.sizeBits ∧
    (updateMassive2DGameOfLife c s).gameStats.generation = s.gameStats.generation + 1 ∧
    (updateMassive2DGameOfLife c s).gameStats.totalCells =
        (updateMassive2DGameOfLife c s).aliveCellsData.length ∧
    (updateMassive2DGameOfLife c s).aliveCellsData.length =
        liveCount (updateMassive2DGameOfLife c s).currentGrid := by
  have hg : (updateMassive2DGameOfLife c s).gameStats.generation =
      (s.gameStats.generation + 1) % 2 ^ c.sizeBits := by
    rw [tick_unpaused c s hp]
  refine ⟨hg, ?_, tick_totalCells_eq_length c s hp, ?_⟩
  · rw [hg, Nat.mod_eq_of_lt hgen]
  · rw [tick_currentGrid_masked c s hs hp, tick_aliveCellsData_masked c s hp, liveCount_map,
      List.length_map]

/-- Witness of C12: one tick of the blinker on the small grid. -/
theorem C12_tick_counters_witness :
    blinkerState.Sized smallConfig ∧ blinkerState.isPaused = false ∧
    blinkerState.gameStats.generation + 1 < 2 ^ smallConfig.sizeBits ∧
    (updateMassive2DGameOfLife smallConfig blinkerState).gameStats.generation =
      blinkerState.gameStats.generation + 1 ∧
    (updateMassive2DGameOfLife smallConfig blinkerState).gameStats.totalCells =
      (updateMassive2DGameOfLife smallConfig blinkerState).aliveCellsData.length :=
  ⟨by decide, rfl, by decide,
    (C12_tick_counters smallConfig blinkerState (by decide) rfl (by decide)).2.1,
    (C12_tick_counters smallConfig blinkerState (by decide) rfl (by decide)).2.2.1⟩

/-- C15: every record `(x, y, neighbors, isNewBorn)` of the live-cell list that
an unpaused tick produces is in bounds; the count the code computed for it is
the number of in-bounds adjacent cells alive in the pre-tick bitmap, at most 8
and unchanged by the cast to `uint8_t`, and it is the value stored in
`neighbors`; and `isNewBorn` is true iff the cell was dead in the pre-tick
bitmap. -/
theorem C15_record_fields (c : Config) (s : State) (hp : s.isPaused = false) :
    ∀ cell ∈ (updateMassive2DGameOfLife c s).aliveCellsData,
      ∃ x < c.GRID_WIDTH, ∃ y < c.GRID_HEIGHT, cell.x = x ∧ cell.y = y ∧
        countNeighbors c s.currentGrid x y = liveNeighbours c s.currentGrid x y ∧
        liveNeighbours c s.currentGrid x y ≤ 8 ∧
        countNeighbors c s.currentGrid x y % 256 = countNeighbors c s.currentGrid x y ∧
        cell.neighbors = liveNeighbours c s.currentGrid x y ∧
        (cell.isNewBorn = true ↔ bitAt s.currentGrid (getGridIndex c x y) = false) := by
  intro cell hc
  rw [tick_aliveCellsData_masked c s hp, List.mem_map] at hc
  obtain ⟨i, hi, rfl⟩ := hc
  have hlt := List.mem_range.mp (List.mem_filter.mp hi).1
  have hx := index_mod_lt c hlt
  have hy := index_div_lt c hlt
  have hcount := countNeighbors_eq c s.currentGrid hx hy
  have hle := liveNeighbours_le c s.currentGrid
    ((i % c.GRID_WIDTH : Nat) : Int) ((i / c.GRID_WIDTH : Nat) : Int)
  refine ⟨i % c.GRID_WIDTH, hx, i / c.GRID_WIDTH, hy, rfl, rfl, hcount, hle, ?_, ?_, ?_⟩
  · rw [hcount]; omega
  · simp only [cellRecord, hcount]; omega
  · simp only [cellRecord, getGridIndex_natCast, index_decompose]
    cases bitAt s.currentGrid (i : Int) <;> simp

/-- Witness of C15: the record of the centre cell after one tick of the blinker
on the small grid. -/
theorem C15_record_fields_witness :
    blinkerState.isPaused = false ∧
    ∃ x < smallConfig.GRID_WIDTH, ∃ y < smallConfig.GRID_HEIGHT,
      (2 : Int) = x ∧ (2 : Int) = y ∧
        countNeighbors smallConfig blinkerState.currentGrid x y =
          liveNeighbours smallConfig blinkerState.currentGrid x y ∧
        liveNeighbours smallConfig blinkerState.currentGrid x y ≤ 8 ∧
        countNeighbors smallConfig blinkerState.currentGrid x y % 256 =
          countNeighbors smallConfig blinkerState.currentGrid x y ∧
        2 = liveNeighbours smallConfig blinkerState.currentGrid x y ∧
        (false = true ↔ bitAt blinkerState.currentGrid (getGridIndex smallConfig x y) = false) :=
  ⟨rfl, C15_record_fields smallConfig blinkerState rfl
    { x := 2, y := 2, neighbors := 2, isNewBorn := false } (by decide)⟩

/-- C17: from a state whose bitmap agrees with the live-cell list, an in-bounds
cell is outside the active-region mask iff no live-cell record lies within
distance one of it, and such a cell is dead in the current bitmap before the
tick and dead in the current bitmap after it. -/
theorem C17_unmasked_stays_dead (c : Config) (s : State) (hs : s.Sized c)
    (hag : Agrees c s.currentGrid s.aliveCellsData) (hp : s.isPaused = false)
    (x y : Nat) (hx : x < c.GRID_WIDTH) (hy : y < c.GRID_HEIGHT) :
    (bitAt (activeRegion c s.aliveCellsData) (getGridIndex c x y) = false ↔
      ∀ cell ∈ s.aliveCellsData,
        ¬ ((x : Int) - 1 ≤ cell.x ∧ cell.x ≤ x + 1 ∧ (y : Int) - 1 ≤ cell.y ∧ cell.y ≤ y + 1)) ∧
    (bitAt (activeRegion c s.aliveCellsData) (getGridIndex c x y) = false →
      bitAt s.currentGrid (getGridIndex c x y) = false ∧
        bitAt (updateMassive2DGameOfLife c s).currentGrid (getGridIndex c x y) = false) := by
  constructor
  · rw [getGridIndex_natCast, bitAt_natCast, ← Bool.not_eq_true,
      getD_activeRegion c _ (cell_index_lt c hx hy)]
    constructor
    · intro h cell hcell hnear
      exact h ⟨cell, hcell, (marks_iff c cell hx hy).mpr hnear⟩
    · rintro h ⟨cell, hcell, hmk⟩
      exact h cell hcell ((marks_iff c cell hx hy).mp hmk)
  · intro hm
    refine ⟨(unmasked_dead c hag hx hy hm).1, ?_⟩
    rw [tick_currentGrid_masked c s hs hp, bitAt_map_range c _ hx hy]
    rw [getGridIndex_natCast] at hm
    unfold maskedWillLive
    rw [hm]
    rfl

/-- Witness of C17: the cell `(5, 0)` of the small grid, far from the blinker. -/
theorem C17_unmasked_stays_dead_witness :
    blinkerState.Sized smallConfig ∧
    Agrees smallConfig blinkerState.currentGrid blinkerState.aliveCellsData ∧
    blinkerState.isPaused = false ∧
    bitAt (activeRegion smallConfig blinkerState.aliveCellsData)
      (getGridIndex smallConfig (5 : Nat) (0 : Nat)) = false ∧
    bitAt blinkerState.currentGrid (getGridIndex smallConfig (5 : Nat) (0 : Nat)) = false ∧
    bitAt (updateMassive2DGameOfLife smallConfig blinkerState).currentGrid
      (getGridIndex smallConfig (5 : Nat) (0 : Nat)) = false :=
  ⟨by decide, by decide, rfl, by decide,
    (C17_unmasked_stays_dead smallConfig blinkerState (by decide) (by decide) rfl 5 0
      (by decide) (by decide)).2 (by decide)⟩

/-- C18: the number of cells marked true in the active-region mask is at most
9 times the number of live-cell records, for every live-cell list. -/
theorem C18_active_region_bound (c : Config) (alive : List CellData) :
    liveCount (activeRegion c alive) ≤ 9 * alive.length := by
  have h := liveCount_foldl_markCell_le c alive
    (List.replicate (c.GRID_WIDTH * c.GRID_HEIGHT) false)
  rw [liveCount_replicate_false] at h
  unfold activeRegion
  omega

/-- C19: after `initializeRandomPattern` and after every unpaused tick the
live-cell list is strictly increasing in the grid index `x + y * GRID_WIDTH`,
every record is in bounds, no coordinate appears twice, and the list length is
the number of true cells of the current bitmap. -/
theorem C19_list_strictly_increasing (c : Config) (s : State) (hs : s.Sized c) :
    (∀ (density : ℚ) (r : Nat → ℚ), WellListed c (initializeRandomPattern c density r s)) ∧
    (s.isPaused = false → WellListed c (updateMassive2DGameOfLife c s)) := by
  constructor
  · intro density r
    exact wellListed_of_filter c _ _ _ (seedRecord_coords c)
      (init_currentGrid c density r s hs) (init_aliveCellsData c density r s)
  · intro hp
    exact wellListed_of_filter c _ _ _ (cellRecord_coords c s.currentGrid)
      (tick_currentGrid_masked c s hs hp) (tick_aliveCellsData_masked c s hp)

/-- Witness of C19: seeding and ticking the block state of the small grid. -/
theorem C19_list_strictly_increasing_witness :
    blockState.Sized smallConfig ∧
    WellListed smallConfig (initializeRandomPattern smallConfig (1 / 4) sampleDraws blockState) ∧
    WellListed smallConfig (updateMassive2DGameOfLife smallConfig blockState) :=
  ⟨by decide,
    (C19_list_strictly_increasing smallConfig blockState (by decide)).1 (1 / 4) sampleDraws,
    (C19_list_strictly_increasing smallConfig blockState (by decide)).2 rfl⟩

/-- C16: for an in-bounds cell `(x, y)` the count computed by the eight guarded
reads is the number of offsets `(dx, dy)`, other than `(0, 0)`, in
`{-1, 0, 1}^2` for which `(x + dx, y + dy)` satisfies `isValidCell` and is alive
in the current bitmap.  It reads only in-bounds cells within distance one, so
there is no wraparound: on a grid at least 3 wide the cells of column
`GRID_WIDTH - 1` do not influence the count of a cell in column 0, and likewise
for row `GRID_HEIGHT - 1` and row 0.  Corner cells count at most 3 neighbours,
other edge cells at most 5. -/
theorem C16_neighbour_count_hard_edges (c : Config) (grid : List Bool) (x y : Nat)
    (hx : x < c.GRID_WIDTH) (hy : y < c.GRID_HEIGHT) :
    countNeighbors c grid x y = liveNeighbours c grid x y ∧
    (∀ grid2 : List Bool,
      (∀ a < c.GRID_WIDTH, ∀ b < c.GRID_HEIGHT,
        (a ≤ x + 1 ∧ x ≤ a + 1 ∧ b ≤ y + 1 ∧ y ≤ b + 1) →
          bitAt grid (getGridIndex c a b) = bitAt grid2 (getGridIndex c a b)) →
      countNeighbors c grid x y = countNeighbors c grid2 x y) ∧
    (x = 0 → 3 ≤ c.GRID_WIDTH → ∀ grid2 : List Bool,
      (∀ a < c.GRID_WIDTH, ∀ b < c.GRID_HEIGHT, a + 1 ≠ c.GRID_WIDTH →
          bitAt grid (getGridIndex c a b) = bitAt grid2 (getGridIndex c a b)) →
      countNeighbors c grid x y = countNeighbors c grid2 x y) ∧
    (y = 0 → 3 ≤ c.GRID_HEIGHT → ∀ grid2 : List Bool,
      (∀ a < c.GRID_WIDTH, ∀ b < c.GRID_HEIGHT, b + 1 ≠ c.GRID_HEIGHT →
          bitAt grid (getGridIndex c a b) = bitAt grid2 (getGridIndex c a b)) →
      countNeighbors c grid x y = countNeighbors c grid2 x y) ∧
    (((x = 0 ∨ x + 1 = c.GRID_WIDTH) ∧ (y = 0 ∨ y + 1 = c.GRID_HEIGHT)) →
      countNeighbors c grid x y ≤ 3) ∧
    ((x = 0 ∨ x + 1 = c.GRID_WIDTH ∨ y = 0 ∨ y + 1 = c.GRID_HEIGHT) →
      countNeighbors c grid x y ≤ 5) := by
  have hloc : ∀ grid2 : List Bool,
      (∀ a < c.GRID_WIDTH, ∀ b < c.GRID_HEIGHT,
        (a ≤ x + 1 ∧ x ≤ a + 1 ∧ b ≤ y + 1 ∧ y ≤ b + 1) →
          bitAt grid (getGridIndex c a b) = bitAt grid2 (getGridIndex c a b)) →
      countNeighbors c grid x y = countNeighbors c grid2 x y := by
    intro grid2 h
    rw [countNeighbors_eq c grid hx hy, countNeighbors_eq c grid2 hx hy,
      liveNeighbours_local c grid grid2 x y h]
  have hle := liveNeighbours_le_validNeighbours c grid x y
  have hedge := validNeighbours_edge c x y
  refine ⟨countNeighbors_eq c grid hx hy, hloc, ?_, ?_, ?_, ?_⟩
  · intro hx0 hw grid2 h
    exact hloc grid2 (fun a ha b hb hnear => h a ha b hb (by omega))
  · intro hy0 hh grid2 h
    exact hloc grid2 (fun a ha b hb hnear => h a ha b hb (by omega))
  · intro h
    have := hedge.1 h
    rw [countNeighbors_eq c grid hx hy]
    exact_mod_cast hle.trans this
  · intro h
    have := hedge.2 h
    rw [countNeighbors_eq c grid hx hy]
    exact_mod_cast hle.trans this

/-- Witness of C16: the corner cell `(5, 4)` of the small grid in the block state. -/
theorem C16_neighbour_count_hard_edges_witness :
    5 < smallConfig.GRID_WIDTH ∧ 4 < smallConfig.GRID_HEIGHT ∧
    countNeighbors smallConfig blockState.currentGrid (5 : Nat) (4 : Nat) =
      liveNeighbours smallConfig blockState.currentGrid (5 : Nat) (4 : Nat) ∧
    countNeighbors smallConfig blockState.currentGrid (5 : Nat) (4 : Nat) ≤ 3 :=
  ⟨by decide, by decide,
    (C16_neighbour_count_hard_edges smallConfig blockState.currentGrid 5 4
      (by decide) (by decide)).1,
    (C16_neighbour_count_hard_edges smallConfig blockState.currentGrid 5 4
      (by decide) (by decide)).2.2.2.2.1 (by decide)⟩

/-- C13: the tick rate stays in `[1, 60]`: the initial value 20 lies in the
range, and from any value in the range every sequence of key events handled by
`keyCallback` leaves `updatesPerSecond` in the range; on such values the
decrement in unsigned 32-bit arithmetic does not wrap and the stored result is
at least 1. -/
theorem C13_tick_rate_clamped (events : List (Key × Action)) (ups : Nat)
    (h1 : 1 ≤ ups) (h2 : ups ≤ 60) :
    (1 ≤ updatesPerSecondInit ∧ updatesPerSecondInit ≤ 60) ∧
    (1 ≤ keyEvents events ups ∧ keyEvents events ups ≤ 60) ∧
    (usubOne ups = ups - 1 ∧ 1 ≤ keyCallback Key.MINUS Action.PRESS ups ∧
      1 ≤ keyCallback Key.KP_SUBTRACT Action.PRESS ups) :=
  ⟨by decide, keyEvents_range events h1 h2,
    usubOne_of_pos h1 (by omega), (keyCallback_range _ _ h1 h2).1,
    (keyCallback_range _ _ h1 h2).1⟩

/-- Witness of C13: from the initial rate, slow down twice, try a release event,
speed up once. -/
theorem C13_tick_rate_clamped_witness :
    1 ≤ updatesPerSecondInit ∧ updatesPerSecondInit ≤ 60 ∧
    1 ≤ keyEvents [(Key.MINUS, Action.PRESS), (Key.KP_SUBTRACT, Action.PRESS),
        (Key.EQUAL, Action.RELEASE), (Key.KP_ADD, Action.PRESS)] updatesPerSecondInit ∧
    keyEvents [(Key.MINUS, Action.PRESS), (Key.KP_SUBTRACT, Action.PRESS),
        (Key.EQUAL, Action.RELEASE), (Key.KP_ADD, Action.PRESS)] updatesPerSecondInit ≤ 60 :=
  ⟨by decide, by decide,
    (C13_tick_rate_clamped [(Key.MINUS, Action.PRESS), (Key.KP_SUBTRACT, Action.PRESS),
      (Key.EQUAL, Action.RELEASE), (Key.KP_ADD, Action.PRESS)] updatesPerSecondInit
      (by decide) (by decide)).2.1.1,
    (C13_tick_rate_clamped [(Key.MINUS, Action.PRESS), (Key.KP_SUBTRACT, Action.PRESS),
      (Key.EQUAL, Action.RELEASE), (Key.KP_ADD, Action.PRESS)] updatesPerSecondInit
      (by decide) (by decide)).2.1.2⟩

/-- C14, counterexample: the configured chunk count 32 does not divide the
configured grid height 1080, so the configuration of the program violates the
dimension requirement; nothing rejects it, and a tick from the initial state
runs and advances the generation counter to 1. -/
theorem C14_dimension_requirement_counterexample :
    ¬ DimensionRequirement Config.source ∧
    (updateMassive2DGameOfLife Config.source (State.initial Config.source)).gameStats.generation
      = 1 := by
  constructor
  · decide
  · rw [tick_unpaused Config.source (State.initial Config.source) rfl]
    decide

/-- C14, amended: the configured chunk count 32 divides the grid width 1920
evenly (chunk size 60) but leaves a remainder of 24 on the grid height 1080;
the chunk size 60 is used on both axes and 32 chunks of 60 cover both
dimensions, so every in-bounds cell has bucket coordinates inside the 32 x 32
bucket grid, the row coordinate being at most 17. -/
theorem C14_configured_dimensions :
    Config.source.GRID_SIZE ∣ Config.source.GRID_WIDTH ∧
    Config.source.CHUNK_SIZE = 60 ∧
    Config.source.GRID_HEIGHT % Config.source.GRID_SIZE = 24 ∧
    Config.source.GRID_WIDTH ≤ Config.source.GRID_SIZE * Config.source.CHUNK_SIZE ∧
    Config.source.GRID_HEIGHT ≤ Config.source.GRID_SIZE * Config.source.CHUNK_SIZE ∧
    (∀ x < Config.source.GRID_WIDTH, ∀ y < Config.source.GRID_HEIGHT,
      x / Config.source.CHUNK_SIZE < Config.source.GRID_SIZE ∧
        y / Config.source.CHUNK_SIZE ≤ 17) := by
  refine ⟨by decide, by decide, by decide, by decide, by decide, ?_⟩
  intro x hx y hy
  have hc : Config.source.CHUNK_SIZE = 60 := by decide
  have hw : Config.source.GRID_WIDTH = 1920 := rfl
  have hh : Config.source.GRID_HEIGHT = 1080 := rfl
  have hg : Config.source.GRID_SIZE = 32 := rfl
  rw [hc, hg]
  rw [hw] at hx
  rw [hh] at hy
  omega

/-- C11, counterexample: seed the configured 1920 x 1080 grid so that the even
rows are alive and run one unpaused tick; more than 800000 cells are then alive,
but the published render buffer holds `MAX_INSTANCES = 800000` records, so
`instanceCount` differs from `totalCells`. -/
theorem C11_render_cap_counterexample :
    stripeState.isPaused = false ∧
    MAX_INSTANCES < (updateMassive2DGameOfLife Config.source stripeState).gameStats.totalCells ∧
    (updateMassive2DGameOfLife Config.source stripeState).renderBuffer.instanceCount =
      MAX_INSTANCES ∧
    (updateMassive2DGameOfLife Config.source stripeState).renderBuffer.instanceCount ≠
      (updateMassive2DGameOfLife Config.source stripeState).gameStats.totalCells := by
  have h := stripeState_totalCells
  have hc : (updateMassive2DGameOfLife Config.source stripeState).renderBuffer.instanceCount =
      MAX_INSTANCES := by
    rw [tick_renderBuffer Config.source stripeState stripeState_isPaused]
    exact Nat.min_eq_right (Nat.le_of_lt h)
  exact ⟨stripeState_isPaused, h, hc, by rw [hc]; exact Nat.ne_of_lt h⟩

/-- C11, amended: after every unpaused tick the render buffer holds one
renderable record for each of the first `MAX_INSTANCES` live-cell records, in
live-list order, `instanceCount` is the minimum of `totalCells` and
`MAX_INSTANCES`, and the buffer is flagged for update; when `totalCells` does
not exceed `MAX_INSTANCES` the buffer holds one record for every live-cell
record and `instanceCount` equals `totalCells`. -/
theorem C11_render_snapshot_capped (c : Config) (s : State) (hp : s.isPaused = false) :
    (updateMassive2DGameOfLife c s).renderBuffer.instances =
      ((updateMassive2DGameOfLife c s).aliveCellsData.take MAX_INSTANCES).map toInstance ∧
    (updateMassive2DGameOfLife c s).renderBuffer.instanceCount =
      min (updateMassive2DGameOfLife c s).gameStats.totalCells MAX_INSTANCES ∧
    (updateMassive2DGameOfLife c s).renderBuffer.needsUpdate = true ∧
    ((updateMassive2DGameOfLife c s).gameStats.totalCells ≤ MAX_INSTANCES →
      (updateMassive2DGameOfLife c s).renderBuffer.instances =
          (updateMassive2DGameOfLife c s).aliveCellsData.map toInstance ∧
        (updateMassive2DGameOfLife c s).renderBuffer.instanceCount =
          (updateMassive2DGameOfLife c s).gameStats.totalCells) := by
  rw [tick_renderBuffer c s hp]
  refine ⟨rfl, rfl, rfl, ?_⟩
  intro hle
  constructor
  · show ((updateMassive2DGameOfLife c s).aliveCellsData.take MAX_INSTANCES).map toInstance = _
    rw [List.take_of_length_le]
    rw [← tick_totalCells_eq_length c s hp]
    exact hle
  · exact Nat.min_eq_left hle

/-- Witness of C11 as amended: one tick of the blinker on the small grid
publishes its three records. -/
theorem C11_render_snapshot_capped_witness :
    blinkerState.isPaused = false ∧
    (updateMassive2DGameOfLife smallConfig blinkerState).renderBuffer.instances =
      ((updateMassive2DGameOfLife smallConfig blinkerState).aliveCellsData.take
        MAX_INSTANCES).map toInstance ∧
    (updateMassive2DGameOfLife smallConfig blinkerState).renderBuffer.instanceCount =
      min (updateMassive2DGameOfLife smallConfig blinkerState).gameStats.totalCells
        MAX_INSTANCES :=
  ⟨rfl, (C11_render_snapshot_capped smallConfig blinkerState rfl).1,
    (C11_render_snapshot_capped smallConfig blinkerState rfl).2.1⟩

end GameOfLife
